import Mathlib

/-!
Shallow embedding of the rustboy Game Boy (DMG) emulator core
(`src/utils.rs`, `src/joypad.rs`, `src/mmu.rs`, `src/cpu.rs`, `src/ppu.rs`,
`src/cartridge.rs`) and proofs about the specification claims.

Modelling conventions:
* Machine integers (`u8`, `u16`) are modelled as `Nat` with explicit wrapping
  (`% 256`, `% 65536`) exactly where the Rust code wraps (`wrapping_add`,
  `as u8`, ...).  Byte stores (`[u8; 0x10000]`, `Vec<u8>`) are modelled as
  total functions `Nat → Nat`; the Rust types guarantee stored values are
  bytes, which theorems assume as explicit hypotheses where needed.
* Rust panics (`panic!`, `unreachable!`, `unimplemented!`, out-of-bounds
  indexing) are modelled with `Except Halt`.
* The serial debug `print!` and the `DEBUG_FLAG` trace printout are pure I/O
  with no effect on emulator state and are omitted.
-/

namespace RustBoy

/-- Halting conditions of the core: each constructor models one Rust panic
site, carrying exactly the data interpolated into the panic message. -/
inductive Halt where
  /-- `panic!("opcode: {:02X?}, not implemented", opcode)` in
  `CPU::execute_next`: the diagnostic carries only the opcode. -/
  | notImplemented (opcode : Nat)
  /-- `unimplemented!("Real Time Clock!")` in `MBC3`. -/
  | rtcNotImplemented
  /-- `unreachable!` in `PPU::update_mode` (mode machine fell through). -/
  | unreachableState
  /-- `Option::unwrap` on an empty FIFO in `PPU::render`. -/
  | unwrapNone
  /-- out-of-bounds write to `PPU::frame_buffer` (a Rust array write with an
  index `≥ WIDTH * HEIGHT` would panic). -/
  | frameBufferOutOfBounds
  deriving DecidableEq, Repr

/-! ## `src/utils.rs` -/

/-- `utils::is_bit_set`. -/
def is_bit_set (value bit : Nat) : Bool :=
  (value >>> bit) &&& 0x01 == 0x01

/-- `u8::check_half_carry_add` (`utils::Checks`). -/
def u8_check_half_carry_add (a b c : Nat) : Bool :=
  (a &&& 0x0F) + (b &&& 0x0F) + (c &&& 0x0F) > 0x0F

/-- `u8::check_half_carry_sub` (`utils::Checks`). -/
def u8_check_half_carry_sub (a b c : Nat) : Bool :=
  (b &&& 0x0F) + (c &&& 0x0F) > (a &&& 0x0F)

/-- `u8::check_carry_add` (`utils::Checks`): two `overflowing_add`s. -/
def u8_check_carry_add (a b c : Nat) : Bool :=
  (a + b > 0xFF) || ((a + b) % 256 + c > 0xFF)

/-- `u8::check_carry_sub` (`utils::Checks`). -/
def u8_check_carry_sub (a b c : Nat) : Bool :=
  if a == b then c == 0x01 else (b > a) || (b + c > a)

/-- `u16::check_half_carry_add` (`utils::Checks`). -/
def u16_check_half_carry_add (a b c : Nat) : Bool :=
  (a &&& 0x0FFF) + (b &&& 0x0FFF) + (c &&& 0xFFFF) > 0x0FFF

/-- `u16::check_carry_add` (`utils::Checks`). -/
def u16_check_carry_add (a b c : Nat) : Bool :=
  (a + b > 0xFFFF) || ((a + b) % 65536 + c > 0xFFFF)

/-- u8 `wrapping_add`. -/
def wadd8 (a b : Nat) : Nat := (a + b) % 256

/-- u8 `wrapping_sub` (second operand is a byte in the source). -/
def wsub8 (a b : Nat) : Nat := (a + 256 - b % 256) % 256

/-- u16 `wrapping_add`. -/
def wadd16 (a b : Nat) : Nat := (a + b) % 65536

/-- u16 `wrapping_sub`. -/
def wsub16 (a b : Nat) : Nat := (a + 65536 - b % 65536) % 65536

/-- `byte as i8 as i16 as u16`: two's-complement sign extension of a byte to
16 bits (used by `wrapping_add_signed` call sites). -/
def i8_as_u16 (x : Nat) : Nat :=
  let b := x % 256
  if b < 128 then b else 0xFF00 + b

/-- u16 `wrapping_add_signed` with an `i8`-originating offset. -/
def wadd16_i8 (a x : Nat) : Nat := (a + i8_as_u16 x) % 65536

/-- point update of a byte-store function. -/
def writeMem (mem : Nat → Nat) (a v : Nat) : Nat → Nat :=
  fun n => if n = a then v else mem n

/-! ## `src/joypad.rs` -/

/-- `Joypad` (a newtype over the button latch byte). -/
structure Joypad where
  state : Nat
  deriving Repr

/-- `Joypad::read`. -/
def Joypad.read (j : Joypad) (r_joypad : Nat) : Nat :=
  (r_joypad &&& 0xF0) |||
    match is_bit_set r_joypad 4, is_bit_set r_joypad 5 with
    | false, false => 0x0F &&& (j.state ||| (j.state >>> 4))
    | false, true => 0x0F &&& (j.state >>> 4)
    | true, false => 0x0F &&& j.state
    | true, true => 0x0F

/-! ## `src/mmu.rs` -/

/-- `MMU`. -/
structure MMU where
  memory : Nat → Nat
  div_counter : Nat
  prev_and_result : Bool
  dma_cycles_counter : Nat
  joypad : Joypad

/-- `MMU::read_byte`. -/
def MMU.read_byte (m : MMU) (address : Nat) : Nat :=
  if 0xA000 ≤ address ∧ address < 0xC000 then 0x00
  else if 0xE000 ≤ address ∧ address < 0xFE00 then m.memory (address - 0x2000)
  else if 0xFEA0 ≤ address ∧ address < 0xFF00 then 0x00
  else if address = 0xFF00 then m.joypad.read (m.memory 0xFF00)
  else if address = 0xFF04 then (m.div_counter >>> 8) % 256
  else m.memory address

/-- `MMU::write_byte`. -/
def MMU.write_byte (m : MMU) (address value : Nat) : MMU :=
  let m := if address = 0xFF46 then { m with dma_cycles_counter := 0x0280 } else m
  if address < 0x8000 then m
  else if 0xA000 ≤ address ∧ address < 0xC000 then m
  else if 0xE000 ≤ address ∧ address < 0xFE00 then
    { m with memory := writeMem m.memory (address - 0x2000) value }
  else if 0xFEA0 ≤ address ∧ address < 0xFF00 then m
  else if address = 0xFF00 then
    { m with memory := writeMem m.memory 0xFF00 ((m.memory 0xFF00 &&& 0xCF) ||| (value &&& 0x30)) }
  else if address = 0xFF04 then { m with div_counter := 0 }
  else { m with memory := writeMem m.memory address value }

/-- `MMU::request_interrupt` (call sites always pass `bit ≤ 4`, so the
`bit > 4` `unreachable!` guard is never taken and is not modelled). -/
def MMU.request_interrupt (m : MMU) (bit : Nat) : MMU :=
  m.write_byte 0xFF0F (m.read_byte 0xFF0F ||| (1 <<< bit))

/-- the OAM-DMA copy `memory.copy_within(x..(x + 0xA0), 0xFE00)` with
`x = memory[0xFF46] << 8`. -/
def MMU.dma_copy (m : MMU) : MMU :=
  let x := (m.memory 0xFF46) <<< 8
  { m with memory := fun n =>
      if 0xFE00 ≤ n ∧ n < 0xFEA0 then m.memory (x + (n - 0xFE00)) else m.memory n }

/-- the first half of `MMU::update_timers`: DMA countdown (with the copy on
reaching zero) followed by the DIV counter increment. -/
def MMU.pre_timer_state (m : MMU) (cycles : Nat) : MMU :=
  let m :=
    if m.dma_cycles_counter > 0 then
      let m' := { m with dma_cycles_counter := m.dma_cycles_counter - cycles }
      if m'.dma_cycles_counter = 0 then m'.dma_copy else m'
    else m
  { m with div_counter := (m.div_counter + cycles) % 65536 }

/-- the `and_result` of `MMU::update_timers`: the TAC-selected DIV counter
bit ANDed with the timer-enable bit, computed from the current state. -/
def MMU.timer_and_result (m : MMU) : Bool :=
  let tac := m.read_byte 0xFF07
  let timer_enabled := is_bit_set tac 2
  let div_counter_bit : Nat :=
    match tac &&& 0x03 with
    | 0x00 => 9
    | 0x01 => 3
    | 0x02 => 5
    | _ => 7
  ((m.div_counter >>> div_counter_bit) &&& 0x01 == 0x01) && timer_enabled

/-- `MMU::update_timers`. -/
def MMU.update_timers (m : MMU) (cycles : Nat) : MMU :=
  let m' := m.pre_timer_state cycles
  let curr_and_result := m'.timer_and_result
  let m'' :=
    if m'.prev_and_result && !curr_and_result then
      let tima := (m'.read_byte 0xFF05 + 1) % 256
      if tima = 0x00 then
        let tima' := m'.read_byte 0xFF06
        (m'.request_interrupt 2).write_byte 0xFF05 tima'
      else m'.write_byte 0xFF05 tima
    else m'
  { m'' with prev_and_result := curr_and_result }

/-! ## `src/cpu.rs` -/

/-- `CPU`. -/
structure CPU where
  a : Nat
  f : Nat
  b : Nat
  c : Nat
  d : Nat
  e : Nat
  h : Nat
  l : Nat
  sp : Nat
  pc : Nat
  ime : Bool
  ime_scheduled : Bool
  low_power_mode : Bool

/-- `CPU::new` (post-boot register state). -/
def CPU.new : CPU :=
  { a := 0x01, f := 0xB0, b := 0x00, c := 0x13, d := 0x00, e := 0xD8
    h := 0x01, l := 0x4D, sp := 0xFFFE, pc := 0x0100
    ime := false, ime_scheduled := false, low_power_mode := false }

/-- `CPU::af`. -/
def CPU.af (s : CPU) : Nat := s.f ||| (s.a <<< 8)

/-- `CPU::bc`. -/
def CPU.bc (s : CPU) : Nat := s.c ||| (s.b <<< 8)

/-- `CPU::de`. -/
def CPU.de (s : CPU) : Nat := s.e ||| (s.d <<< 8)

/-- `CPU::hl`. -/
def CPU.hl (s : CPU) : Nat := s.l ||| (s.h <<< 8)

/-- `CPU::set_af` (`f = (val & 0xFFF0) as u8`). -/
def CPU.set_af (s : CPU) (val : Nat) : CPU :=
  { s with f := (val &&& 0xFFF0) % 256, a := (val >>> 8) % 256 }

/-- `CPU::set_bc`. -/
def CPU.set_bc (s : CPU) (val : Nat) : CPU :=
  { s with c := val % 256, b := (val >>> 8) % 256 }

/-- `CPU::set_de`. -/
def CPU.set_de (s : CPU) (val : Nat) : CPU :=
  { s with e := val % 256, d := (val >>> 8) % 256 }

/-- `CPU::set_hl`. -/
def CPU.set_hl (s : CPU) (val : Nat) : CPU :=
  { s with l := val % 256, h := (val >>> 8) % 256 }

/-- `CPU::set_flag` (`!(1 << bit)` on u8 is XOR with 0xFF). -/
def CPU.set_flag (s : CPU) (bit : Nat) (flag : Bool) : CPU :=
  if flag then { s with f := s.f ||| (1 <<< bit) }
  else { s with f := s.f &&& (0xFF ^^^ (1 <<< bit)) }

/-- `CPU::get_z_flag`. -/
def CPU.get_z_flag (s : CPU) : Bool := (s.f >>> 7) &&& 0x01 == 0x01

/-- `CPU::set_z_flag`. -/
def CPU.set_z_flag (s : CPU) (flag : Bool) : CPU := s.set_flag 7 flag

/-- `CPU::get_n_flag`. -/
def CPU.get_n_flag (s : CPU) : Bool := (s.f >>> 6) &&& 0x01 == 0x01

/-- `CPU::set_n_flag`. -/
def CPU.set_n_flag (s : CPU) (flag : Bool) : CPU := s.set_flag 6 flag

/-- `CPU::get_h_flag`. -/
def CPU.get_h_flag (s : CPU) : Bool := (s.f >>> 5) &&& 0x01 == 0x01

/-- `CPU::set_h_flag`. -/
def CPU.set_h_flag (s : CPU) (flag : Bool) : CPU := s.set_flag 5 flag

/-- `CPU::get_c_flag`. -/
def CPU.get_c_flag (s : CPU) : Bool := (s.f >>> 4) &&& 0x01 == 0x01

/-- `CPU::set_c_flag`. -/
def CPU.set_c_flag (s : CPU) (flag : Bool) : CPU := s.set_flag 4 flag

/-- `CPU::get_byte`: fetch the byte at `pc` and post-increment `pc`. -/
def CPU.get_byte (s : CPU) (m : MMU) : Nat × CPU :=
  (m.read_byte s.pc, { s with pc := (s.pc + 1) % 65536 })

/-- `CPU::push_stack`. -/
def CPU.push_stack (s : CPU) (m : MMU) (val : Nat) : CPU × MMU :=
  let s := { s with sp := wsub16 s.sp 1 }
  let m := m.write_byte s.sp ((val >>> 8) % 256)
  let s := { s with sp := wsub16 s.sp 1 }
  let m := m.write_byte s.sp (val % 256)
  (s, m)

/-- `CPU::pop_stack` (little endian). -/
def CPU.pop_stack (s : CPU) (m : MMU) : Nat × CPU :=
  let lo := m.read_byte s.sp
  let s := { s with sp := (s.sp + 1) % 65536 }
  let hi := m.read_byte s.sp
  let s := { s with sp := (s.sp + 1) % 65536 }
  (lo ||| (hi <<< 8), s)

/-- `CPU::execute_interrupts`.  The final `unreachable!` of the Rust match
cannot fire: when bits 0–3 of `ie & if` are clear the pending test
`0x1F & ie & if > 0` forces bit 4, which is the final branch here. -/
def CPU.execute_interrupts (s : CPU) (m : MMU) : CPU × MMU × Nat :=
  let ie_reg := m.read_byte 0xFFFF
  let if_reg := m.read_byte 0xFF0F
  if 0x1F &&& ie_reg &&& if_reg > 0 then
    let s := { s with low_power_mode := false }
    if s.ime then
      let s := { s with ime := false }
      let pm := s.push_stack m s.pc
      let s := pm.1
      let m := pm.2
      let x := ie_reg &&& if_reg
      let vector_mask : Nat × Nat :=
        if (x >>> 0) &&& 0x01 = 0x01 then (0x0040, 0xFE)
        else if (x >>> 1) &&& 0x01 = 0x01 then (0x0048, 0xFD)
        else if (x >>> 2) &&& 0x01 = 0x01 then (0x0050, 0xFB)
        else if (x >>> 3) &&& 0x01 = 0x01 then (0x0058, 0xF7)
        else (0x0060, 0xEF)
      ({ s with pc := vector_mask.1 },
        m.write_byte 0xFF0F (if_reg &&& vector_mask.2), 20)
    else (s, m, 0)
  else (s, m, 0)

/-- `(x as i8).shl(1) as u8` (CB `SLA`). -/
def sla8 (x : Nat) : Nat := (x <<< 1) % 256

/-- `(x as i8).shr(1) as u8`: arithmetic shift right of a byte (CB `SRA`). -/
def sra8 (x : Nat) : Nat :=
  let b := x % 256
  if b < 128 then b >>> 1 else (b >>> 1) ||| 0x80

/-- operand read of `CPU::execute_prefixed`
(`match opcode & 0x07 { 0x00 => self.b, ... }`); the index is `opcode & 0x07
≤ 7`, so the default arm is exactly the `0x07 => self.a` case. -/
def cbRead (s : CPU) (m : MMU) (idx : Nat) : Nat :=
  match idx with
  | 0x00 => s.b
  | 0x01 => s.c
  | 0x02 => s.d
  | 0x03 => s.e
  | 0x04 => s.h
  | 0x05 => s.l
  | 0x06 => m.read_byte s.hl
  | _ => s.a

/-- operand write-back of `CPU::execute_prefixed`; the default arm is the
`0x07 => self.a = x` case (the index is `opcode & 0x07 ≤ 7`). -/
def cbWrite (s : CPU) (m : MMU) (idx x : Nat) : CPU × MMU :=
  match idx with
  | 0x00 => ({ s with b := x }, m)
  | 0x01 => ({ s with c := x }, m)
  | 0x02 => ({ s with d := x }, m)
  | 0x03 => ({ s with e := x }, m)
  | 0x04 => ({ s with h := x }, m)
  | 0x05 => ({ s with l := x }, m)
  | 0x06 => (s, m.write_byte s.hl x)
  | _ => ({ s with a := x }, m)

/-- CB opcodes `0x00..=0x07` (`RLC r`). -/
def cbRLC (opcode : Nat) (s : CPU) (m : MMU) : CPU × MMU × Nat :=
  let idx := opcode &&& 0x07
  let cycles := 8 + (if idx = 0x06 then 4 else 0)
  let x := cbRead s m idx
  let c_flag := x &&& 0x80 == 0x80
  let x := ((x <<< 1) % 256) ||| (if c_flag then 0x01 else 0x00)
  let z_flag := x == 0x00
  let cycles := cycles + (if idx = 0x06 then 4 else 0)
  let wr := cbWrite s m idx x
  let s := wr.1
  let m := wr.2
  let s := s.set_z_flag z_flag
  let s := s.set_n_flag false
  let s := s.set_h_flag false
  let s := s.set_c_flag c_flag
  (s, m, cycles)

/-- CB opcodes `0x08..=0x0F` (`RRC r`). -/
def cbRRC (opcode : Nat) (s : CPU) (m : MMU) : CPU × MMU × Nat :=
  let idx := opcode &&& 0x07
  let cycles := 8 + (if idx = 0x06 then 4 else 0)
  let x := cbRead s m idx
  let c_flag := x &&& 0x01 == 0x01
  let x := (x >>> 1) ||| (if c_flag then 0x80 else 0x00)
  let z_flag := x == 0x00
  let cycles := cycles + (if idx = 0x06 then 4 else 0)
  let wr := cbWrite s m idx x
  let s := wr.1
  let m := wr.2
  let s := s.set_z_flag z_flag
  let s := s.set_n_flag false
  let s := s.set_h_flag false
  let s := s.set_c_flag c_flag
  (s, m, cycles)

/-- CB opcodes `0x10..=0x17` (`RL r`). -/
def cbRL (opcode : Nat) (s : CPU) (m : MMU) : CPU × MMU × Nat :=
  let idx := opcode &&& 0x07
  let cycles := 8 + (if idx = 0x06 then 4 else 0)
  let x := cbRead s m idx
  let c_flag := x &&& 0x80 == 0x80
  let x := ((x <<< 1) % 256) ||| (if s.get_c_flag then 1 else 0)
  let z_flag := x == 0x00
  let cycles := cycles + (if idx = 0x06 then 4 else 0)
  let wr := cbWrite s m idx x
  let s := wr.1
  let m := wr.2
  let s := s.set_z_flag z_flag
  let s := s.set_n_flag false
  let s := s.set_h_flag false
  let s := s.set_c_flag c_flag
  (s, m, cycles)

/-- CB opcodes `0x18..=0x1F` (`RR r`). -/
def cbRR (opcode : Nat) (s : CPU) (m : MMU) : CPU × MMU × Nat :=
  let idx := opcode &&& 0x07
  let cycles := 8 + (if idx = 0x06 then 4 else 0)
  let x := cbRead s m idx
  let c_flag := x &&& 0x01 == 0x01
  let x := (x >>> 1) ||| (if s.get_c_flag then 0x80 else 0)
  let z_flag := x == 0x00
  let cycles := cycles + (if idx = 0x06 then 4 else 0)
  let wr := cbWrite s m idx x
  let s := wr.1
  let m := wr.2
  let s := s.set_z_flag z_flag
  let s := s.set_n_flag false
  let s := s.set_h_flag false
  let s := s.set_c_flag c_flag
  (s, m, cycles)

/-- CB opcodes `0x20..=0x27` (`SLA r`). -/
def cbSLA (opcode : Nat) (s : CPU) (m : MMU) : CPU × MMU × Nat :=
  let idx := opcode &&& 0x07
  let cycles := 8 + (if idx = 0x06 then 4 else 0)
  let x := cbRead s m idx
  let c_flag := x &&& 0x80 == 0x80
  let x := sla8 x
  let z_flag := x == 0x00
  let cycles := cycles + (if idx = 0x06 then 4 else 0)
  let wr := cbWrite s m idx x
  let s := wr.1
  let m := wr.2
  let s := s.set_z_flag z_flag
  let s := s.set_n_flag false
  let s := s.set_h_flag false
  let s := s.set_c_flag c_flag
  (s, m, cycles)

/-- CB opcodes `0x28..=0x2F` (`SRA r`). -/
def cbSRA (opcode : Nat) (s : CPU) (m : MMU) : CPU × MMU × Nat :=
  let idx := opcode &&& 0x07
  let cycles := 8 + (if idx = 0x06 then 4 else 0)
  let x := cbRead s m idx
  let c_flag := x &&& 0x01 == 0x01
  let x := sra8 x
  let z_flag := x == 0x00
  let cycles := cycles + (if idx = 0x06 then 4 else 0)
  let wr := cbWrite s m idx x
  let s := wr.1
  let m := wr.2
  let s := s.set_z_flag z_flag
  let s := s.set_n_flag false
  let s := s.set_h_flag false
  let s := s.set_c_flag c_flag
  (s, m, cycles)

/-- CB opcodes `0x30..=0x37` (`SWAP r`). -/
def cbSWAP (opcode : Nat) (s : CPU) (m : MMU) : CPU × MMU × Nat :=
  let idx := opcode &&& 0x07
  let cycles := 8 + (if idx = 0x06 then 4 else 0)
  let x := cbRead s m idx
  let x := ((x &&& 0x0F) <<< 4) ||| (x >>> 4)
  let z_flag := x == 0x00
  let cycles := cycles + (if idx = 0x06 then 4 else 0)
  let wr := cbWrite s m idx x
  let s := wr.1
  let m := wr.2
  let s := s.set_z_flag z_flag
  let s := s.set_n_flag false
  let s := s.set_h_flag false
  let s := s.set_c_flag false
  (s, m, cycles)

/-- CB opcodes `0x38..=0x3F` (`SRL r`). -/
def cbSRL (opcode : Nat) (s : CPU) (m : MMU) : CPU × MMU × Nat :=
  let idx := opcode &&& 0x07
  let cycles := 8 + (if idx = 0x06 then 4 else 0)
  let x := cbRead s m idx
  let c_flag := x &&& 0x01 == 0x01
  let x := x >>> 1
  let z_flag := x == 0x00
  let cycles := cycles + (if idx = 0x06 then 4 else 0)
  let wr := cbWrite s m idx x
  let s := wr.1
  let m := wr.2
  let s := s.set_z_flag z_flag
  let s := s.set_n_flag false
  let s := s.set_h_flag false
  let s := s.set_c_flag c_flag
  (s, m, cycles)

/-- CB opcodes `0x40..=0x7F` (`BIT b, r`). -/
def cbBIT (opcode : Nat) (s : CPU) (m : MMU) : CPU × MMU × Nat :=
  let idx := opcode &&& 0x07
  let cycles := 8 + (if idx = 0x06 then 4 else 0)
  let bit := (opcode >>> 3) &&& 0x07
  let z_flag := (cbRead s m idx >>> bit) &&& 0x01 == 0x01
  let s := s.set_z_flag (!z_flag)
  let s := s.set_n_flag false
  let s := s.set_h_flag true
  (s, m, cycles)

/-- CB opcodes `0x80..=0xBF` (`RES b, r`). -/
def cbRES (opcode : Nat) (s : CPU) (m : MMU) : CPU × MMU × Nat :=
  let idx := opcode &&& 0x07
  let cycles := 8 + (if idx = 0x06 then 8 else 0)
  let val := 0xFF ^^^ (1 <<< ((opcode >>> 3) &&& 0x07))
  let wr := cbWrite s m idx (cbRead s m idx &&& val)
  let s := wr.1
  let m := wr.2
  (s, m, cycles)

/-- CB opcodes `0xC0..=0xFF` (`SET b, r`). -/
def cbSET (opcode : Nat) (s : CPU) (m : MMU) : CPU × MMU × Nat :=
  let idx := opcode &&& 0x07
  let cycles := 8 + (if idx = 0x06 then 8 else 0)
  let val := 1 <<< ((opcode >>> 3) &&& 0x07)
  let wr := cbWrite s m idx (cbRead s m idx ||| val)
  let s := wr.1
  let m := wr.2
  (s, m, cycles)

/-- `CPU::execute_prefixed`.  The Rust `match` ranges cover all of `u8`;
the final branch here is the `0xC0..=0xFF` (`SET`) family. -/
def CPU.execute_prefixed (s : CPU) (m : MMU) : CPU × MMU × Nat :=
  let gb := s.get_byte m
  let opcode := gb.1
  let s := gb.2
  if opcode ≤ 0x07 then cbRLC opcode s m
  else if opcode ≤ 0x0F then cbRRC opcode s m
  else if opcode ≤ 0x17 then cbRL opcode s m
  else if opcode ≤ 0x1F then cbRR opcode s m
  else if opcode ≤ 0x27 then cbSLA opcode s m
  else if opcode ≤ 0x2F then cbSRA opcode s m
  else if opcode ≤ 0x37 then cbSWAP opcode s m
  else if opcode ≤ 0x3F then cbSRL opcode s m
  else if opcode ≤ 0x7F then cbBIT opcode s m
  else if opcode ≤ 0xBF then cbRES opcode s m
  else cbSET opcode s m

/-- opcodes `0x00`–`0x0F` of the big `match` in `CPU::execute_next`
(the default arm of each row helper is the `0x_F` case; the selector is
`op &&& 0x0F ≤ 15`). -/
def exec_0x (op : Nat) (s : CPU) (m : MMU) : Except Halt (CPU × MMU × Nat) :=
  match op &&& 0x0F with
  | 0x0 => .ok (s, m, 4)
  | 0x1 =>
    let gb := s.get_byte m
    let lo := gb.1
    let s := gb.2
    let gb := s.get_byte m
    let hi := gb.1
    let s := gb.2
    let x := lo ||| (hi <<< 8)
    .ok (s.set_bc x, m, 12)
  | 0x2 => .ok (s, m.write_byte s.bc s.a, 8)
  | 0x3 => .ok (s.set_bc (wadd16 s.bc 1), m, 8)
  | 0x4 =>
    let s := { s with b := wadd8 s.b 1 }
    let s := s.set_z_flag (s.b == 0x00)
    let s := s.set_n_flag false
    let s := s.set_h_flag (s.b &&& 0x0F == 0x00)
    .ok (s, m, 4)
  | 0x5 =>
    let s := s.set_h_flag (u8_check_half_carry_sub s.b 1 0x00)
    let s := { s with b := wsub8 s.b 1 }
    let s := s.set_z_flag (s.b == 0x00)
    let s := s.set_n_flag true
    .ok (s, m, 4)
  | 0x6 =>
    let gb := s.get_byte m
    let x := gb.1
    let s := gb.2
    .ok ({ s with b := x }, m, 8)
  | 0x7 =>
    let msb := s.a &&& 0x80 == 0x80
    let s := { s with a := (s.a <<< 1) % 256 }
    let s := s.set_z_flag false
    let s := s.set_n_flag false
    let s := s.set_h_flag false
    let s :=
      if msb then
        let s := s.set_c_flag true
        { s with a := s.a ||| 0x01 }
      else s.set_c_flag false
    .ok (s, m, 4)
  | 0x8 =>
    let gb := s.get_byte m
    let lo := gb.1
    let s := gb.2
    let gb := s.get_byte m
    let hi := gb.1
    let s := gb.2
    let address := lo ||| (hi <<< 8)
    let m := m.write_byte address (s.sp % 256)
    let m := m.write_byte (address + 1) ((s.sp >>> 8) % 256)
    .ok (s, m, 20)
  | 0x9 =>
    let s := s.set_h_flag (u16_check_half_carry_add s.hl s.bc 0x0000)
    let s := s.set_c_flag (u16_check_carry_add s.hl s.bc 0x0000)
    let s := s.set_hl (wadd16 s.hl s.bc)
    let s := s.set_n_flag false
    .ok (s, m, 8)
  | 0xA => .ok ({ s with a := m.read_byte s.bc }, m, 8)
  | 0xB => .ok (s.set_bc (wsub16 s.bc 1), m, 8)
  | 0xC =>
    let s := { s with c := wadd8 s.c 1 }
    let s := s.set_z_flag (s.c == 0x00)
    let s := s.set_n_flag false
    let s := s.set_h_flag (s.c &&& 0x0F == 0x00)
    .ok (s, m, 4)
  | 0xD =>
    let s := s.set_h_flag (u8_check_half_carry_sub s.c 1 0x00)
    let s := { s with c := wsub8 s.c 1 }
    let s := s.set_z_flag (s.c == 0x00)
    let s := s.set_n_flag true
    .ok (s, m, 4)
  | 0xE =>
    let gb := s.get_byte m
    let x := gb.1
    let s := gb.2
    .ok ({ s with c := x }, m, 8)
  | _ =>
    let lsb := s.a &&& 0x01 == 0x01
    let s := { s with a := s.a >>> 1 }
    let s := s.set_z_flag false
    let s := s.set_n_flag false
    let s := s.set_h_flag false
    let s :=
      if lsb then
        let s := s.set_c_flag true
        { s with a := s.a ||| 0x80 }
      else s.set_c_flag false
    .ok (s, m, 4)

/-- opcodes `0x10`–`0x1F` (`0x10` is `STOP`: it consumes one operand byte
and reports 8 T-cycles in this core). -/
def exec_1x (op : Nat) (s : CPU) (m : MMU) : Except Halt (CPU × MMU × Nat) :=
  match op &&& 0x0F with
  | 0x0 =>
    let gb := s.get_byte m
    let s := gb.2
    .ok (s, m, 8)
  | 0x1 =>
    let gb := s.get_byte m
    let lo := gb.1
    let s := gb.2
    let gb := s.get_byte m
    let hi := gb.1
    let s := gb.2
    let x := lo ||| (hi <<< 8)
    .ok (s.set_de x, m, 12)
  | 0x2 => .ok (s, m.write_byte s.de s.a, 8)
  | 0x3 => .ok (s.set_de (wadd16 s.de 1), m, 8)
  | 0x4 =>
    let s := { s with d := wadd8 s.d 1 }
    let s := s.set_z_flag (s.d == 0x00)
    let s := s.set_n_flag false
    let s := s.set_h_flag (s.d &&& 0x0F == 0x00)
    .ok (s, m, 4)
  | 0x5 =>
    let s := s.set_h_flag (u8_check_half_carry_sub s.d 1 0x00)
    let s := { s with d := wsub8 s.d 1 }
    let s := s.set_z_flag (s.d == 0x00)
    let s := s.set_n_flag true
    .ok (s, m, 4)
  | 0x6 =>
    let gb := s.get_byte m
    let x := gb.1
    let s := gb.2
    .ok ({ s with d := x }, m, 8)
  | 0x7 =>
    let msb := s.a &&& 0x80 == 0x80
    let s := { s with a := (s.a <<< 1) % 256 }
    let s := s.set_z_flag false
    let s := s.set_n_flag false
    let s := s.set_h_flag false
    let s := if s.get_c_flag then { s with a := s.a ||| 0x01 } else s
    let s := if msb then s.set_c_flag true else s.set_c_flag false
    .ok (s, m, 4)
  | 0x8 =>
    let gb := s.get_byte m
    let x := gb.1
    let s := gb.2
    .ok ({ s with pc := wadd16_i8 s.pc x }, m, 12)
  | 0x9 =>
    let s := s.set_h_flag (u16_check_half_carry_add s.hl s.de 0x0000)
    let s := s.set_c_flag (u16_check_carry_add s.hl s.de 0x0000)
    let s := s.set_hl (wadd16 s.hl s.de)
    let s := s.set_n_flag false
    .ok (s, m, 8)
  | 0xA => .ok ({ s with a := m.read_byte s.de }, m, 8)
  | 0xB => .ok (s.set_de (wsub16 s.de 1), m, 8)
  | 0xC =>
    let s := { s with e := wadd8 s.e 1 }
    let s := s.set_z_flag (s.e == 0x00)
    let s := s.set_n_flag false
    let s := s.set_h_flag (s.e &&& 0x0F == 0x00)
    .ok (s, m, 4)
  | 0xD =>
    let s := s.set_h_flag (u8_check_half_carry_sub s.e 1 0x00)
    let s := { s with e := wsub8 s.e 1 }
    let s := s.set_z_flag (s.e == 0x00)
    let s := s.set_n_flag true
    .ok (s, m, 4)
  | 0xE =>
    let gb := s.get_byte m
    let x := gb.1
    let s := gb.2
    .ok ({ s with e := x }, m, 8)
  | _ =>
    let lsb := s.a &&& 0x01 == 0x01
    let s := { s with a := s.a >>> 1 }
    let s := s.set_z_flag false
    let s := s.set_n_flag false
    let s := s.set_h_flag false
    let s := if s.get_c_flag then { s with a := s.a ||| 0x80 } else s
    let s := if lsb then s.set_c_flag true else s.set_c_flag false
    .ok (s, m, 4)

/-- opcodes `0x20`–`0x2F` (including `0x27` `DAA`). -/
def exec_2x (op : Nat) (s : CPU) (m : MMU) : Except Halt (CPU × MMU × Nat) :=
  match op &&& 0x0F with
  | 0x0 =>
    let gb := s.get_byte m
    let x := gb.1
    let s := gb.2
    if !s.get_z_flag then .ok ({ s with pc := wadd16_i8 s.pc x }, m, 12)
    else .ok (s, m, 8)
  | 0x1 =>
    let gb := s.get_byte m
    let lo := gb.1
    let s := gb.2
    let gb := s.get_byte m
    let hi := gb.1
    let s := gb.2
    let x := lo ||| (hi <<< 8)
    .ok (s.set_hl x, m, 12)
  | 0x2 =>
    let m := m.write_byte s.hl s.a
    .ok (s.set_hl (wadd16 s.hl 1), m, 8)
  | 0x3 => .ok (s.set_hl (wadd16 s.hl 1), m, 8)
  | 0x4 =>
    let s := { s with h := wadd8 s.h 1 }
    let s := s.set_z_flag (s.h == 0x00)
    let s := s.set_n_flag false
    let s := s.set_h_flag (s.h &&& 0x0F == 0x00)
    .ok (s, m, 4)
  | 0x5 =>
    let s := s.set_h_flag (u8_check_half_carry_sub s.h 1 0x00)
    let s := { s with h := wsub8 s.h 1 }
    let s := s.set_z_flag (s.h == 0x00)
    let s := s.set_n_flag true
    .ok (s, m, 4)
  | 0x6 =>
    let gb := s.get_byte m
    let x := gb.1
    let s := gb.2
    .ok ({ s with h := x }, m, 8)
  | 0x7 =>
    let s :=
      if s.get_n_flag then
        let adjustment := (if s.get_h_flag then 0x06 else 0) + (if s.get_c_flag then 0x60 else 0)
        { s with a := wsub8 s.a adjustment }
      else
        let adjustment := if s.get_h_flag || (s.a &&& 0x0F > 0x09) then 0x06 else 0
        let adj_s :=
          if s.get_c_flag || (s.a > 0x99) then (adjustment + 0x60, s.set_c_flag true)
          else (adjustment, s)
        { adj_s.2 with a := wadd8 adj_s.2.a adj_s.1 }
    let s := s.set_z_flag (s.a == 0x00)
    let s := s.set_h_flag false
    .ok (s, m, 4)
  | 0x8 =>
    let gb := s.get_byte m
    let x := gb.1
    let s := gb.2
    if s.get_z_flag then .ok ({ s with pc := wadd16_i8 s.pc x }, m, 12)
    else .ok (s, m, 8)
  | 0x9 =>
    let s := s.set_h_flag (u16_check_half_carry_add s.hl s.hl 0x0000)
    let s := s.set_c_flag (u16_check_carry_add s.hl s.hl 0x0000)
    let s := s.set_hl (wadd16 s.hl s.hl)
    let s := s.set_n_flag false
    .ok (s, m, 8)
  | 0xA =>
    let hl := s.hl
    let s := { s with a := m.read_byte hl }
    .ok (s.set_hl (wadd16 hl 1), m, 8)
  | 0xB => .ok (s.set_hl (wsub16 s.hl 1), m, 8)
  | 0xC =>
    let s := { s with l := wadd8 s.l 1 }
    let s := s.set_z_flag (s.l == 0x00)
    let s := s.set_n_flag false
    let s := s.set_h_flag (s.l &&& 0x0F == 0x00)
    .ok (s, m, 4)
  | 0xD =>
    let s := s.set_h_flag (u8_check_half_carry_sub s.l 1 0x00)
    let s := { s with l := wsub8 s.l 1 }
    let s := s.set_z_flag (s.l == 0x00)
    let s := s.set_n_flag true
    .ok (s, m, 4)
  | 0xE =>
    let gb := s.get_byte m
    let x := gb.1
    let s := gb.2
    .ok ({ s with l := x }, m, 8)
  | _ =>
    let s := { s with a := s.a ^^^ 0xFF }
    let s := s.set_n_flag true
    let s := s.set_h_flag true
    .ok (s, m, 4)

/-- opcodes `0x30`–`0x3F`. -/
def exec_3x (op : Nat) (s : CPU) (m : MMU) : Except Halt (CPU × MMU × Nat) :=
  match op &&& 0x0F with
  | 0x0 =>
    let gb := s.get_byte m
    let x := gb.1
    let s := gb.2
    if !s.get_c_flag then .ok ({ s with pc := wadd16_i8 s.pc x }, m, 12)
    else .ok (s, m, 8)
  | 0x1 =>
    let gb := s.get_byte m
    let lo := gb.1
    let s := gb.2
    let gb := s.get_byte m
    let hi := gb.1
    let s := gb.2
    .ok ({ s with sp := lo ||| (hi <<< 8) }, m, 12)
  | 0x2 =>
    let m := m.write_byte s.hl s.a
    .ok (s.set_hl (wsub16 s.hl 1), m, 8)
  | 0x3 => .ok ({ s with sp := wadd16 s.sp 1 }, m, 8)
  | 0x4 =>
    let x := wadd8 (m.read_byte s.hl) 1
    let m := m.write_byte s.hl x
    let s := s.set_z_flag (x == 0x00)
    let s := s.set_n_flag false
    let s := s.set_h_flag (x &&& 0x0F == 0x00)
    .ok (s, m, 12)
  | 0x5 =>
    let x := m.read_byte s.hl
    let s := s.set_h_flag (u8_check_half_carry_sub x 1 0x00)
    let x := wsub8 x 1
    let m := m.write_byte s.hl x
    let s := s.set_z_flag (x == 0x00)
    let s := s.set_n_flag true
    .ok (s, m, 12)
  | 0x6 =>
    let gb := s.get_byte m
    let x := gb.1
    let s := gb.2
    .ok (s, m.write_byte s.hl x, 12)
  | 0x7 =>
    let s := s.set_n_flag false
    let s := s.set_h_flag false
    let s := s.set_c_flag true
    .ok (s, m, 4)
  | 0x8 =>
    let gb := s.get_byte m
    let x := gb.1
    let s := gb.2
    if s.get_c_flag then .ok ({ s with pc := wadd16_i8 s.pc x }, m, 12)
    else .ok (s, m, 8)
  | 0x9 =>
    let s := s.set_h_flag (u16_check_half_carry_add s.hl s.sp 0x0000)
    let s := s.set_c_flag (u16_check_carry_add s.hl s.sp 0x0000)
    let s := s.set_hl (wadd16 s.hl s.sp)
    let s := s.set_n_flag false
    .ok (s, m, 8)
  | 0xA =>
    let hl := s.hl
    let s := { s with a := m.read_byte hl }
    .ok (s.set_hl (wsub16 hl 1), m, 8)
  | 0xB => .ok ({ s with sp := wsub16 s.sp 1 }, m, 8)
  | 0xC =>
    let s := { s with a := wadd8 s.a 1 }
    let s := s.set_z_flag (s.a == 0x00)
    let s := s.set_n_flag false
    let s := s.set_h_flag (s.a &&& 0x0F == 0x00)
    .ok (s, m, 4)
  | 0xD =>
    let s := s.set_h_flag (u8_check_half_carry_sub s.a 1 0x00)
    let s := { s with a := wsub8 s.a 1 }
    let s := s.set_z_flag (s.a == 0x00)
    let s := s.set_n_flag true
    .ok (s, m, 4)
  | 0xE =>
    let gb := s.get_byte m
    let x := gb.1
    let s := gb.2
    .ok ({ s with a := x }, m, 8)
  | _ =>
    let s := s.set_n_flag false
    let s := s.set_h_flag false
    let s := if s.get_c_flag then s.set_c_flag false else s.set_c_flag true
    .ok (s, m, 4)

/-- opcodes `0x40`–`0x4F` (`LD B, r` / `LD C, r`). -/
def exec_4x (op : Nat) (s : CPU) (m : MMU) : Except Halt (CPU × MMU × Nat) :=
  match op &&& 0x0F with
  | 0x0 => .ok ({ s with b := s.b }, m, 4)
  | 0x1 => .ok ({ s with b := s.c }, m, 4)
  | 0x2 => .ok ({ s with b := s.d }, m, 4)
  | 0x3 => .ok ({ s with b := s.e }, m, 4)
  | 0x4 => .ok ({ s with b := s.h }, m, 4)
  | 0x5 => .ok ({ s with b := s.l }, m, 4)
  | 0x6 => .ok ({ s with b := m.read_byte s.hl }, m, 8)
  | 0x7 => .ok ({ s with b := s.a }, m, 4)
  | 0x8 => .ok ({ s with c := s.b }, m, 4)
  | 0x9 => .ok ({ s with c := s.c }, m, 4)
  | 0xA => .ok ({ s with c := s.d }, m, 4)
  | 0xB => .ok ({ s with c := s.e }, m, 4)
  | 0xC => .ok ({ s with c := s.h }, m, 4)
  | 0xD => .ok ({ s with c := s.l }, m, 4)
  | 0xE => .ok ({ s with c := m.read_byte s.hl }, m, 8)
  | _ => .ok ({ s with c := s.a }, m, 4)

/-- opcodes `0x50`–`0x5F` (`LD D, r` / `LD E, r`). -/
def exec_5x (op : Nat) (s : CPU) (m : MMU) : Except Halt (CPU × MMU × Nat) :=
  match op &&& 0x0F with
  | 0x0 => .ok ({ s with d := s.b }, m, 4)
  | 0x1 => .ok ({ s with d := s.c }, m, 4)
  | 0x2 => .ok ({ s with d := s.d }, m, 4)
  | 0x3 => .ok ({ s with d := s.e }, m, 4)
  | 0x4 => .ok ({ s with d := s.h }, m, 4)
  | 0x5 => .ok ({ s with d := s.l }, m, 4)
  | 0x6 => .ok ({ s with d := m.read_byte s.hl }, m, 8)
  | 0x7 => .ok ({ s with d := s.a }, m, 4)
  | 0x8 => .ok ({ s with e := s.b }, m, 4)
  | 0x9 => .ok ({ s with e := s.c }, m, 4)
  | 0xA => .ok ({ s with e := s.d }, m, 4)
  | 0xB => .ok ({ s with e := s.e }, m, 4)
  | 0xC => .ok ({ s with e := s.h }, m, 4)
  | 0xD => .ok ({ s with e := s.l }, m, 4)
  | 0xE => .ok ({ s with e := m.read_byte s.hl }, m, 8)
  | _ => .ok ({ s with e := s.a }, m, 4)

/-- opcodes `0x60`–`0x6F` (`LD H, r` / `LD L, r`). -/
def exec_6x (op : Nat) (s : CPU) (m : MMU) : Except Halt (CPU × MMU × Nat) :=
  match op &&& 0x0F with
  | 0x0 => .ok ({ s with h := s.b }, m, 4)
  | 0x1 => .ok ({ s with h := s.c }, m, 4)
  | 0x2 => .ok ({ s with h := s.d }, m, 4)
  | 0x3 => .ok ({ s with h := s.e }, m, 4)
  | 0x4 => .ok ({ s with h := s.h }, m, 4)
  | 0x5 => .ok ({ s with h := s.l }, m, 4)
  | 0x6 => .ok ({ s with h := m.read_byte s.hl }, m, 8)
  | 0x7 => .ok ({ s with h := s.a }, m, 4)
  | 0x8 => .ok ({ s with l := s.b }, m, 4)
  | 0x9 => .ok ({ s with l := s.c }, m, 4)
  | 0xA => .ok ({ s with l := s.d }, m, 4)
  | 0xB => .ok ({ s with l := s.e }, m, 4)
  | 0xC => .ok ({ s with l := s.h }, m, 4)
  | 0xD => .ok ({ s with l := s.l }, m, 4)
  | 0xE => .ok ({ s with l := m.read_byte s.hl }, m, 8)
  | _ => .ok ({ s with l := s.a }, m, 4)

/-- opcodes `0x70`–`0x7F` (`LD (HL), r`, `HALT`, `LD A, r`). -/
def exec_7x (op : Nat) (s : CPU) (m : MMU) : Except Halt (CPU × MMU × Nat) :=
  match op &&& 0x0F with
  | 0x0 => .ok (s, m.write_byte s.hl s.b, 8)
  | 0x1 => .ok (s, m.write_byte s.hl s.c, 8)
  | 0x2 => .ok (s, m.write_byte s.hl s.d, 8)
  | 0x3 => .ok (s, m.write_byte s.hl s.e, 8)
  | 0x4 => .ok (s, m.write_byte s.hl s.h, 8)
  | 0x5 => .ok (s, m.write_byte s.hl s.l, 8)
  | 0x6 => .ok ({ s with low_power_mode := true }, m, 4)
  | 0x7 => .ok (s, m.write_byte s.hl s.a, 8)
  | 0x8 => .ok ({ s with a := s.b }, m, 4)
  | 0x9 => .ok ({ s with a := s.c }, m, 4)
  | 0xA => .ok ({ s with a := s.d }, m, 4)
  | 0xB => .ok ({ s with a := s.e }, m, 4)
  | 0xC => .ok ({ s with a := s.h }, m, 4)
  | 0xD => .ok ({ s with a := s.l }, m, 4)
  | 0xE => .ok ({ s with a := m.read_byte s.hl }, m, 8)
  | _ => .ok ({ s with a := s.a }, m, 4)

/-- opcodes `0x80`–`0x8F` (`ADD A, r` / `ADC A, r`). -/
def exec_8x (op : Nat) (s : CPU) (m : MMU) : Except Halt (CPU × MMU × Nat) :=
  match op &&& 0x0F with
  | 0x0 =>
    let s := s.set_h_flag (u8_check_half_carry_add s.a s.b 0x00)
    let s := s.set_c_flag (u8_check_carry_add s.a s.b 0x00)
    let s := { s with a := wadd8 s.a s.b }
    let s := s.set_z_flag (s.a == 0x00)
    let s := s.set_n_flag false
    .ok (s, m, 4)
  | 0x1 =>
    let s := s.set_h_flag (u8_check_half_carry_add s.a s.c 0x00)
    let s := s.set_c_flag (u8_check_carry_add s.a s.c 0x00)
    let s := { s with a := wadd8 s.a s.c }
    let s := s.set_z_flag (s.a == 0x00)
    let s := s.set_n_flag false
    .ok (s, m, 4)
  | 0x2 =>
    let s := s.set_h_flag (u8_check_half_carry_add s.a s.d 0x00)
    let s := s.set_c_flag (u8_check_carry_add s.a s.d 0x00)
    let s := { s with a := wadd8 s.a s.d }
    let s := s.set_z_flag (s.a == 0x00)
    let s := s.set_n_flag false
    .ok (s, m, 4)
  | 0x3 =>
    let s := s.set_h_flag (u8_check_half_carry_add s.a s.e 0x00)
    let s := s.set_c_flag (u8_check_carry_add s.a s.e 0x00)
    let s := { s with a := wadd8 s.a s.e }
    let s := s.set_z_flag (s.a == 0x00)
    let s := s.set_n_flag false
    .ok (s, m, 4)
  | 0x4 =>
    let s := s.set_h_flag (u8_check_half_carry_add s.a s.h 0x00)
    let s := s.set_c_flag (u8_check_carry_add s.a s.h 0x00)
    let s := { s with a := wadd8 s.a s.h }
    let s := s.set_z_flag (s.a == 0x00)
    let s := s.set_n_flag false
    .ok (s, m, 4)
  | 0x5 =>
    let s := s.set_h_flag (u8_check_half_carry_add s.a s.l 0x00)
    let s := s.set_c_flag (u8_check_carry_add s.a s.l 0x00)
    let s := { s with a := wadd8 s.a s.l }
    let s := s.set_z_flag (s.a == 0x00)
    let s := s.set_n_flag false
    .ok (s, m, 4)
  | 0x6 =>
    let x := m.read_byte s.hl
    let s := s.set_h_flag (u8_check_half_carry_add s.a x 0x00)
    let s := s.set_c_flag (u8_check_carry_add s.a x 0x00)
    let s := { s with a := wadd8 s.a x }
    let s := s.set_z_flag (s.a == 0x00)
    let s := s.set_n_flag false
    .ok (s, m, 8)
  | 0x7 =>
    let s := s.set_h_flag (u8_check_half_carry_add s.a s.a 0x00)
    let s := s.set_c_flag (u8_check_carry_add s.a s.a 0x00)
    let s := { s with a := wadd8 s.a s.a }
    let s := s.set_z_flag (s.a == 0x00)
    let s := s.set_n_flag false
    .ok (s, m, 4)
  | 0x8 =>
    let carry := if s.get_c_flag then 1 else 0
    let s := s.set_h_flag (u8_check_half_carry_add s.a s.b carry)
    let s := s.set_c_flag (u8_check_carry_add s.a s.b carry)
    let s := { s with a := wadd8 (wadd8 s.a s.b) carry }
    let s := s.set_z_flag (s.a == 0x00)
    let s := s.set_n_flag false
    .ok (s, m, 4)
  | 0x9 =>
    let carry := if s.get_c_flag then 1 else 0
    let s := s.set_h_flag (u8_check_half_carry_add s.a s.c carry)
    let s := s.set_c_flag (u8_check_carry_add s.a s.c carry)
    let s := { s with a := wadd8 (wadd8 s.a s.c) carry }
    let s := s.set_z_flag (s.a == 0x00)
    let s := s.set_n_flag false
    .ok (s, m, 4)
  | 0xA =>
    let carry := if s.get_c_flag then 1 else 0
    let s := s.set_h_flag (u8_check_half_carry_add s.a s.d carry)
    let s := s.set_c_flag (u8_check_carry_add s.a s.d carry)
    let s := { s with a := wadd8 (wadd8 s.a s.d) carry }
    let s := s.set_z_flag (s.a == 0x00)
    let s := s.set_n_flag false
    .ok (s, m, 4)
  | 0xB =>
    let carry := if s.get_c_flag then 1 else 0
    let s := s.set_h_flag (u8_check_half_carry_add s.a s.e carry)
    let s := s.set_c_flag (u8_check_carry_add s.a s.e carry)
    let s := { s with a := wadd8 (wadd8 s.a s.e) carry }
    let s := s.set_z_flag (s.a == 0x00)
    let s := s.set_n_flag false
    .ok (s, m, 4)
  | 0xC =>
    let carry := if s.get_c_flag then 1 else 0
    let s := s.set_h_flag (u8_check_half_carry_add s.a s.h carry)
    let s := s.set_c_flag (u8_check_carry_add s.a s.h carry)
    let s := { s with a := wadd8 (wadd8 s.a s.h) carry }
    let s := s.set_z_flag (s.a == 0x00)
    let s := s.set_n_flag false
    .ok (s, m, 4)
  | 0xD =>
    let carry := if s.get_c_flag then 1 else 0
    let s := s.set_h_flag (u8_check_half_carry_add s.a s.l carry)
    let s := s.set_c_flag (u8_check_carry_add s.a s.l carry)
    let s := { s with a := wadd8 (wadd8 s.a s.l) carry }
    let s := s.set_z_flag (s.a == 0x00)
    let s := s.set_n_flag false
    .ok (s, m, 4)
  | 0xE =>
    let x := m.read_byte s.hl
    let carry := if s.get_c_flag then 1 else 0
    let s := s.set_h_flag (u8_check_half_carry_add s.a x carry)
    let s := s.set_c_flag (u8_check_carry_add s.a x carry)
    let s := { s with a := wadd8 (wadd8 s.a x) carry }
    let s := s.set_z_flag (s.a == 0x00)
    let s := s.set_n_flag false
    .ok (s, m, 8)
  | _ =>
    let carry := if s.get_c_flag then 1 else 0
    let s := s.set_h_flag (u8_check_half_carry_add s.a s.a carry)
    let s := s.set_c_flag (u8_check_carry_add s.a s.a carry)
    let s := { s with a := wadd8 (wadd8 s.a s.a) carry }
    let s := s.set_z_flag (s.a == 0x00)
    let s := s.set_n_flag false
    .ok (s, m, 4)

/-- opcodes `0x90`–`0x9F` (`SUB A, r` / `SBC A, r`; `0x97` `SUB A, A` is
written out with constant flags in the source). -/
def exec_9x (op : Nat) (s : CPU) (m : MMU) : Except Halt (CPU × MMU × Nat) :=
  match op &&& 0x0F with
  | 0x0 =>
    let s := s.set_h_flag (u8_check_half_carry_sub s.a s.b 0x00)
    let s := s.set_c_flag (u8_check_carry_sub s.a s.b 0x00)
    let s := { s with a := wsub8 s.a s.b }
    let s := s.set_z_flag (s.a == 0x00)
    let s := s.set_n_flag true
    .ok (s, m, 4)
  | 0x1 =>
    let s := s.set_h_flag (u8_check_half_carry_sub s.a s.c 0x00)
    let s := s.set_c_flag (u8_check_carry_sub s.a s.c 0x00)
    let s := { s with a := wsub8 s.a s.c }
    let s := s.set_z_flag (s.a == 0x00)
    let s := s.set_n_flag true
    .ok (s, m, 4)
  | 0x2 =>
    let s := s.set_h_flag (u8_check_half_carry_sub s.a s.d 0x00)
    let s := s.set_c_flag (u8_check_carry_sub s.a s.d 0x00)
    let s := { s with a := wsub8 s.a s.d }
    let s := s.set_z_flag (s.a == 0x00)
    let s := s.set_n_flag true
    .ok (s, m, 4)
  | 0x3 =>
    let s := s.set_h_flag (u8_check_half_carry_sub s.a s.e 0x00)
    let s := s.set_c_flag (u8_check_carry_sub s.a s.e 0x00)
    let s := { s with a := wsub8 s.a s.e }
    let s := s.set_z_flag (s.a == 0x00)
    let s := s.set_n_flag true
    .ok (s, m, 4)
  | 0x4 =>
    let s := s.set_h_flag (u8_check_half_carry_sub s.a s.h 0x00)
    let s := s.set_c_flag (u8_check_carry_sub s.a s.h 0x00)
    let s := { s with a := wsub8 s.a s.h }
    let s := s.set_z_flag (s.a == 0x00)
    let s := s.set_n_flag true
    .ok (s, m, 4)
  | 0x5 =>
    let s := s.set_h_flag (u8_check_half_carry_sub s.a s.l 0x00)
    let s := s.set_c_flag (u8_check_carry_sub s.a s.l 0x00)
    let s := { s with a := wsub8 s.a s.l }
    let s := s.set_z_flag (s.a == 0x00)
    let s := s.set_n_flag true
    .ok (s, m, 4)
  | 0x6 =>
    let x := m.read_byte s.hl
    let s := s.set_h_flag (u8_check_half_carry_sub s.a x 0x00)
    let s := s.set_c_flag (u8_check_carry_sub s.a x 0x00)
    let s := { s with a := wsub8 s.a x }
    let s := s.set_z_flag (s.a == 0x00)
    let s := s.set_n_flag true
    .ok (s, m, 8)
  | 0x7 =>
    let s := s.set_h_flag false
    let s := s.set_c_flag false
    let s := { s with a := wsub8 s.a s.a }
    let s := s.set_z_flag true
    let s := s.set_n_flag true
    .ok (s, m, 4)
  | 0x8 =>
    let carry := if s.get_c_flag then 1 else 0
    let s := s.set_h_flag (u8_check_half_carry_sub s.a s.b carry)
    let s := s.set_c_flag (u8_check_carry_sub s.a s.b carry)
    let s := { s with a := wsub8 (wsub8 s.a s.b) carry }
    let s := s.set_z_flag (s.a == 0x00)
    let s := s.set_n_flag true
    .ok (s, m, 4)
  | 0x9 =>
    let carry := if s.get_c_flag then 1 else 0
    let s := s.set_h_flag (u8_check_half_carry_sub s.a s.c carry)
    let s := s.set_c_flag (u8_check_carry_sub s.a s.c carry)
    let s := { s with a := wsub8 (wsub8 s.a s.c) carry }
    let s := s.set_z_flag (s.a == 0x00)
    let s := s.set_n_flag true
    .ok (s, m, 4)
  | 0xA =>
    let carry := if s.get_c_flag then 1 else 0
    let s := s.set_h_flag (u8_check_half_carry_sub s.a s.d carry)
    let s := s.set_c_flag (u8_check_carry_sub s.a s.d carry)
    let s := { s with a := wsub8 (wsub8 s.a s.d) carry }
    let s := s.set_z_flag (s.a == 0x00)
    let s := s.set_n_flag true
    .ok (s, m, 4)
  | 0xB =>
    let carry := if s.get_c_flag then 1 else 0
    let s := s.set_h_flag (u8_check_half_carry_sub s.a s.e carry)
    let s := s.set_c_flag (u8_check_carry_sub s.a s.e carry)
    let s := { s with a := wsub8 (wsub8 s.a s.e) carry }
    let s := s.set_z_flag (s.a == 0x00)
    let s := s.set_n_flag true
    .ok (s, m, 4)
  | 0xC =>
    let carry := if s.get_c_flag then 1 else 0
    let s := s.set_h_flag (u8_check_half_carry_sub s.a s.h carry)
    let s := s.set_c_flag (u8_check_carry_sub s.a s.h carry)
    let s := { s with a := wsub8 (wsub8 s.a s.h) carry }
    let s := s.set_z_flag (s.a == 0x00)
    let s := s.set_n_flag true
    .ok (s, m, 4)
  | 0xD =>
    let carry := if s.get_c_flag then 1 else 0
    let s := s.set_h_flag (u8_check_half_carry_sub s.a s.l carry)
    let s := s.set_c_flag (u8_check_carry_sub s.a s.l carry)
    let s := { s with a := wsub8 (wsub8 s.a s.l) carry }
    let s := s.set_z_flag (s.a == 0x00)
    let s := s.set_n_flag true
    .ok (s, m, 4)
  | 0xE =>
    let x := m.read_byte s.hl
    let carry := if s.get_c_flag then 1 else 0
    let s := s.set_h_flag (u8_check_half_carry_sub s.a x carry)
    let s := s.set_c_flag (u8_check_carry_sub s.a x carry)
    let s := { s with a := wsub8 (wsub8 s.a x) carry }
    let s := s.set_z_flag (s.a == 0x00)
    let s := s.set_n_flag true
    .ok (s, m, 8)
  | _ =>
    let carry := if s.get_c_flag then 1 else 0
    let s := s.set_h_flag (u8_check_half_carry_sub s.a s.a carry)
    let s := s.set_c_flag (u8_check_carry_sub s.a s.a carry)
    let s := { s with a := wsub8 (wsub8 s.a s.a) carry }
    let s := s.set_z_flag (s.a == 0x00)
    let s := s.set_n_flag true
    .ok (s, m, 4)

/-- opcodes `0xA0`–`0xAF` (`AND A, r` / `XOR A, r`; `0xAF` `XOR A, A` sets
`Z` directly in the source). -/
def exec_Ax (op : Nat) (s : CPU) (m : MMU) : Except Halt (CPU × MMU × Nat) :=
  match op &&& 0x0F with
  | 0x0 =>
    let s := { s with a := s.a &&& s.b }
    let s := s.set_z_flag (s.a == 0x00)
    let s := s.set_n_flag false
    let s := s.set_h_flag true
    let s := s.set_c_flag false
    .ok (s, m, 4)
  | 0x1 =>
    let s := { s with a := s.a &&& s.c }
    let s := s.set_z_flag (s.a == 0x00)
    let s := s.set_n_flag false
    let s := s.set_h_flag true
    let s := s.set_c_flag false
    .ok (s, m, 4)
  | 0x2 =>
    let s := { s with a := s.a &&& s.d }
    let s := s.set_z_flag (s.a == 0x00)
    let s := s.set_n_flag false
    let s := s.set_h_flag true
    let s := s.set_c_flag false
    .ok (s, m, 4)
  | 0x3 =>
    let s := { s with a := s.a &&& s.e }
    let s := s.set_z_flag (s.a == 0x00)
    let s := s.set_n_flag false
    let s := s.set_h_flag true
    let s := s.set_c_flag false
    .ok (s, m, 4)
  | 0x4 =>
    let s := { s with a := s.a &&& s.h }
    let s := s.set_z_flag (s.a == 0x00)
    let s := s.set_n_flag false
    let s := s.set_h_flag true
    let s := s.set_c_flag false
    .ok (s, m, 4)
  | 0x5 =>
    let s := { s with a := s.a &&& s.l }
    let s := s.set_z_flag (s.a == 0x00)
    let s := s.set_n_flag false
    let s := s.set_h_flag true
    let s := s.set_c_flag false
    .ok (s, m, 4)
  | 0x6 =>
    let s := { s with a := s.a &&& m.read_byte s.hl }
    let s := s.set_z_flag (s.a == 0x00)
    let s := s.set_n_flag false
    let s := s.set_h_flag true
    let s := s.set_c_flag false
    .ok (s, m, 8)
  | 0x7 =>
    let s := { s with a := s.a &&& s.a }
    let s := s.set_z_flag (s.a == 0x00)
    let s := s.set_n_flag false
    let s := s.set_h_flag true
    let s := s.set_c_flag false
    .ok (s, m, 4)
  | 0x8 =>
    let s := { s with a := s.a ^^^ s.b }
    let s := s.set_z_flag (s.a == 0x00)
    let s := s.set_n_flag false
    let s := s.set_h_flag false
    let s := s.set_c_flag false
    .ok (s, m, 4)
  | 0x9 =>
    let s := { s with a := s.a ^^^ s.c }
    let s := s.set_z_flag (s.a == 0x00)
    let s := s.set_n_flag false
    let s := s.set_h_flag false
    let s := s.set_c_flag false
    .ok (s, m, 4)
  | 0xA =>
    let s := { s with a := s.a ^^^ s.d }
    let s := s.set_z_flag (s.a == 0x00)
    let s := s.set_n_flag false
    let s := s.set_h_flag false
    let s := s.set_c_flag false
    .ok (s, m, 4)
  | 0xB =>
    let s := { s with a := s.a ^^^ s.e }
    let s := s.set_z_flag (s.a == 0x00)
    let s := s.set_n_flag false
    let s := s.set_h_flag false
    let s := s.set_c_flag false
    .ok (s, m, 4)
  | 0xC =>
    let s := { s with a := s.a ^^^ s.h }
    let s := s.set_z_flag (s.a == 0x00)
    let s := s.set_n_flag false
    let s := s.set_h_flag false
    let s := s.set_c_flag false
    .ok (s, m, 4)
  | 0xD =>
    let s := { s with a := s.a ^^^ s.l }
    let s := s.set_z_flag (s.a == 0x00)
    let s := s.set_n_flag false
    let s := s.set_h_flag false
    let s := s.set_c_flag false
    .ok (s, m, 4)
  | 0xE =>
    let s := { s with a := s.a ^^^ m.read_byte s.hl }
    let s := s.set_z_flag (s.a == 0x00)
    let s := s.set_n_flag false
    let s := s.set_h_flag false
    let s := s.set_c_flag false
    .ok (s, m, 8)
  | _ =>
    let s := { s with a := s.a ^^^ s.a }
    let s := s.set_z_flag true
    let s := s.set_n_flag false
    let s := s.set_h_flag false
    let s := s.set_c_flag false
    .ok (s, m, 4)

/-- opcodes `0xB0`–`0xBF` (`OR A, r` / `CP A, r`; `0xBF` `CP A, A` is
written out with constant flags in the source). -/
def exec_Bx (op : Nat) (s : CPU) (m : MMU) : Except Halt (CPU × MMU × Nat) :=
  match op &&& 0x0F with
  | 0x0 =>
    let s := { s with a := s.a ||| s.b }
    let s := s.set_z_flag (s.a == 0x00)
    let s := s.set_n_flag false
    let s := s.set_h_flag false
    let s := s.set_c_flag false
    .ok (s, m, 4)
  | 0x1 =>
    let s := { s with a := s.a ||| s.c }
    let s := s.set_z_flag (s.a == 0x00)
    let s := s.set_n_flag false
    let s := s.set_h_flag false
    let s := s.set_c_flag false
    .ok (s, m, 4)
  | 0x2 =>
    let s := { s with a := s.a ||| s.d }
    let s := s.set_z_flag (s.a == 0x00)
    let s := s.set_n_flag false
    let s := s.set_h_flag false
    let s := s.set_c_flag false
    .ok (s, m, 4)
  | 0x3 =>
    let s := { s with a := s.a ||| s.e }
    let s := s.set_z_flag (s.a == 0x00)
    let s := s.set_n_flag false
    let s := s.set_h_flag false
    let s := s.set_c_flag false
    .ok (s, m, 4)
  | 0x4 =>
    let s := { s with a := s.a ||| s.h }
    let s := s.set_z_flag (s.a == 0x00)
    let s := s.set_n_flag false
    let s := s.set_h_flag false
    let s := s.set_c_flag false
    .ok (s, m, 4)
  | 0x5 =>
    let s := { s with a := s.a ||| s.l }
    let s := s.set_z_flag (s.a == 0x00)
    let s := s.set_n_flag false
    let s := s.set_h_flag false
    let s := s.set_c_flag false
    .ok (s, m, 4)
  | 0x6 =>
    let s := { s with a := s.a ||| m.read_byte s.hl }
    let s := s.set_z_flag (s.a == 0x00)
    let s := s.set_n_flag false
    let s := s.set_h_flag false
    let s := s.set_c_flag false
    .ok (s, m, 8)
  | 0x7 =>
    let s := { s with a := s.a ||| s.a }
    let s := s.set_z_flag (s.a == 0x00)
    let s := s.set_n_flag false
    let s := s.set_h_flag false
    let s := s.set_c_flag false
    .ok (s, m, 4)
  | 0x8 =>
    let s := s.set_h_flag (u8_check_half_carry_sub s.a s.b 0x00)
    let s := s.set_c_flag (u8_check_carry_sub s.a s.b 0x00)
    let s := s.set_z_flag (wsub8 s.a s.b == 0x00)
    let s := s.set_n_flag true
    .ok (s, m, 4)
  | 0x9 =>
    let s := s.set_h_flag (u8_check_half_carry_sub s.a s.c 0x00)
    let s := s.set_c_flag (u8_check_carry_sub s.a s.c 0x00)
    let s := s.set_z_flag (wsub8 s.a s.c == 0x00)
    let s := s.set_n_flag true
    .ok (s, m, 4)
  | 0xA =>
    let s := s.set_h_flag (u8_check_half_carry_sub s.a s.d 0x00)
    let s := s.set_c_flag (u8_check_carry_sub s.a s.d 0x00)
    let s := s.set_z_flag (wsub8 s.a s.d == 0x00)
    let s := s.set_n_flag true
    .ok (s, m, 4)
  | 0xB =>
    let s := s.set_h_flag (u8_check_half_carry_sub s.a s.e 0x00)
    let s := s.set_c_flag (u8_check_carry_sub s.a s.e 0x00)
    let s := s.set_z_flag (wsub8 s.a s.e == 0x00)
    let s := s.set_n_flag true
    .ok (s, m, 4)
  | 0xC =>
    let s := s.set_h_flag (u8_check_half_carry_sub s.a s.h 0x00)
    let s := s.set_c_flag (u8_check_carry_sub s.a s.h 0x00)
    let s := s.set_z_flag (wsub8 s.a s.h == 0x00)
    let s := s.set_n_flag true
    .ok (s, m, 4)
  | 0xD =>
    let s := s.set_h_flag (u8_check_half_carry_sub s.a s.l 0x00)
    let s := s.set_c_flag (u8_check_carry_sub s.a s.l 0x00)
    let s := s.set_z_flag (wsub8 s.a s.l == 0x00)
    let s := s.set_n_flag true
    .ok (s, m, 4)
  | 0xE =>
    let x := m.read_byte s.hl
    let s := s.set_h_flag (u8_check_half_carry_sub s.a x 0x00)
    let s := s.set_c_flag (u8_check_carry_sub s.a x 0x00)
    let s := s.set_z_flag (wsub8 s.a x == 0x00)
    let s := s.set_n_flag true
    .ok (s, m, 8)
  | _ =>
    let s := s.set_h_flag false
    let s := s.set_c_flag false
    let s := s.set_z_flag true
    let s := s.set_n_flag true
    .ok (s, m, 4)

/-- opcodes `0xC0`–`0xCF` (`0xCB` dispatches to `execute_prefixed`). -/
def exec_Cx (op : Nat) (s : CPU) (m : MMU) : Except Halt (CPU × MMU × Nat) :=
  match op &&& 0x0F with
  | 0x0 =>
    if !s.get_z_flag then
      let pp := s.pop_stack m
      let x := pp.1
      let s := pp.2
      .ok ({ s with pc := x }, m, 20)
    else .ok (s, m, 8)
  | 0x1 =>
    let pp := s.pop_stack m
    let x := pp.1
    let s := pp.2
    .ok (s.set_bc x, m, 12)
  | 0x2 =>
    let gb := s.get_byte m
    let lo := gb.1
    let s := gb.2
    let gb := s.get_byte m
    let hi := gb.1
    let s := gb.2
    let address := lo ||| (hi <<< 8)
    if !s.get_z_flag then .ok ({ s with pc := address }, m, 16)
    else .ok (s, m, 12)
  | 0x3 =>
    let gb := s.get_byte m
    let lo := gb.1
    let s := gb.2
    let gb := s.get_byte m
    let hi := gb.1
    let s := gb.2
    .ok ({ s with pc := lo ||| (hi <<< 8) }, m, 16)
  | 0x4 =>
    let gb := s.get_byte m
    let lo := gb.1
    let s := gb.2
    let gb := s.get_byte m
    let hi := gb.1
    let s := gb.2
    let x := lo ||| (hi <<< 8)
    if !s.get_z_flag then
      let pm := s.push_stack m s.pc
      let s := pm.1
      let m := pm.2
      .ok ({ s with pc := x }, m, 24)
    else .ok (s, m, 12)
  | 0x5 =>
    let pm := s.push_stack m s.bc
    let s := pm.1
    let m := pm.2
    .ok (s, m, 16)
  | 0x6 =>
    let gb := s.get_byte m
    let x := gb.1
    let s := gb.2
    let s := s.set_h_flag (u8_check_half_carry_add s.a x 0x00)
    let s := s.set_c_flag (u8_check_carry_add s.a x 0x00)
    let s := { s with a := wadd8 s.a x }
    let s := s.set_z_flag (s.a == 0x00)
    let s := s.set_n_flag false
    .ok (s, m, 8)
  | 0x7 =>
    let pm := s.push_stack m s.pc
    let s := pm.1
    let m := pm.2
    .ok ({ s with pc := 0x0000 }, m, 16)
  | 0x8 =>
    if s.get_z_flag then
      let pp := s.pop_stack m
      let x := pp.1
      let s := pp.2
      .ok ({ s with pc := x }, m, 20)
    else .ok (s, m, 8)
  | 0x9 =>
    let pp := s.pop_stack m
    let x := pp.1
    let s := pp.2
    .ok ({ s with pc := x }, m, 16)
  | 0xA =>
    let gb := s.get_byte m
    let lo := gb.1
    let s := gb.2
    let gb := s.get_byte m
    let hi := gb.1
    let s := gb.2
    let address := lo ||| (hi <<< 8)
    if s.get_z_flag then .ok ({ s with pc := address }, m, 16)
    else .ok (s, m, 12)
  | 0xB => .ok (s.execute_prefixed m)
  | 0xC =>
    let gb := s.get_byte m
    let lo := gb.1
    let s := gb.2
    let gb := s.get_byte m
    let hi := gb.1
    let s := gb.2
    let address := lo ||| (hi <<< 8)
    if s.get_z_flag then
      let pm := s.push_stack m s.pc
      let s := pm.1
      let m := pm.2
      .ok ({ s with pc := address }, m, 24)
    else .ok (s, m, 12)
  | 0xD =>
    let gb := s.get_byte m
    let lo := gb.1
    let s := gb.2
    let gb := s.get_byte m
    let hi := gb.1
    let s := gb.2
    let address := lo ||| (hi <<< 8)
    let pm := s.push_stack m s.pc
    let s := pm.1
    let m := pm.2
    .ok ({ s with pc := address }, m, 24)
  | 0xE =>
    let gb := s.get_byte m
    let x := gb.1
    let s := gb.2
    let carry := if s.get_c_flag then 1 else 0
    let s := s.set_h_flag (u8_check_half_carry_add s.a x carry)
    let s := s.set_c_flag (u8_check_carry_add s.a x carry)
    let s := { s with a := wadd8 (wadd8 s.a x) carry }
    let s := s.set_z_flag (s.a == 0x00)
    let s := s.set_n_flag false
    .ok (s, m, 8)
  | _ =>
    let pm := s.push_stack m s.pc
    let s := pm.1
    let m := pm.2
    .ok ({ s with pc := 0x0008 }, m, 16)

/-- opcodes `0xD0`–`0xDF` (`0xD3`, `0xDB`, `0xDD` fall through to the
`panic!("opcode: {:02X?}, not implemented", opcode)` arm). -/
def exec_Dx (op : Nat) (s : CPU) (m : MMU) : Except Halt (CPU × MMU × Nat) :=
  match op &&& 0x0F with
  | 0x0 =>
    if !s.get_c_flag then
      let pp := s.pop_stack m
      let x := pp.1
      let s := pp.2
      .ok ({ s with pc := x }, m, 20)
    else .ok (s, m, 8)
  | 0x1 =>
    let pp := s.pop_stack m
    let x := pp.1
    let s := pp.2
    .ok (s.set_de x, m, 12)
  | 0x2 =>
    let gb := s.get_byte m
    let lo := gb.1
    let s := gb.2
    let gb := s.get_byte m
    let hi := gb.1
    let s := gb.2
    let address := lo ||| (hi <<< 8)
    if !s.get_c_flag then .ok ({ s with pc := address }, m, 16)
    else .ok (s, m, 12)
  | 0x3 => .error (.notImplemented op)
  | 0x4 =>
    let gb := s.get_byte m
    let lo := gb.1
    let s := gb.2
    let gb := s.get_byte m
    let hi := gb.1
    let s := gb.2
    let address := lo ||| (hi <<< 8)
    if !s.get_c_flag then
      let pm := s.push_stack m s.pc
      let s := pm.1
      let m := pm.2
      .ok ({ s with pc := address }, m, 24)
    else .ok (s, m, 12)
  | 0x5 =>
    let pm := s.push_stack m s.de
    let s := pm.1
    let m := pm.2
    .ok (s, m, 16)
  | 0x6 =>
    let gb := s.get_byte m
    let x := gb.1
    let s := gb.2
    let s := s.set_h_flag (u8_check_half_carry_sub s.a x 0x00)
    let s := s.set_c_flag (u8_check_carry_sub s.a x 0x00)
    let s := { s with a := wsub8 s.a x }
    let s := s.set_z_flag (s.a == 0x00)
    let s := s.set_n_flag true
    .ok (s, m, 8)
  | 0x7 =>
    let pm := s.push_stack m s.pc
    let s := pm.1
    let m := pm.2
    .ok ({ s with pc := 0x0010 }, m, 16)
  | 0x8 =>
    if s.get_c_flag then
      let pp := s.pop_stack m
      let x := pp.1
      let s := pp.2
      .ok ({ s with pc := x }, m, 20)
    else .ok (s, m, 8)
  | 0x9 =>
    let pp := s.pop_stack m
    let x := pp.1
    let s := pp.2
    .ok ({ s with pc := x, ime := true }, m, 16)
  | 0xA =>
    let gb := s.get_byte m
    let lo := gb.1
    let s := gb.2
    let gb := s.get_byte m
    let hi := gb.1
    let s := gb.2
    let address := lo ||| (hi <<< 8)
    if s.get_c_flag then .ok ({ s with pc := address }, m, 16)
    else .ok (s, m, 12)
  | 0xB => .error (.notImplemented op)
  | 0xC =>
    let gb := s.get_byte m
    let lo := gb.1
    let s := gb.2
    let gb := s.get_byte m
    let hi := gb.1
    let s := gb.2
    let address := lo ||| (hi <<< 8)
    if s.get_c_flag then
      let pm := s.push_stack m s.pc
      let s := pm.1
      let m := pm.2
      .ok ({ s with pc := address }, m, 24)
    else .ok (s, m, 12)
  | 0xD => .error (.notImplemented op)
  | 0xE =>
    let gb := s.get_byte m
    let x := gb.1
    let s := gb.2
    let carry := if s.get_c_flag then 1 else 0
    let s := s.set_h_flag (u8_check_half_carry_sub s.a x carry)
    let s := s.set_c_flag (u8_check_carry_sub s.a x carry)
    let s := { s with a := wsub8 (wsub8 s.a x) carry }
    let s := s.set_z_flag (s.a == 0x00)
    let s := s.set_n_flag true
    .ok (s, m, 8)
  | _ =>
    let pm := s.push_stack m s.pc
    let s := pm.1
    let m := pm.2
    .ok ({ s with pc := 0x0018 }, m, 16)

/-- opcodes `0xE0`–`0xEF` (`0xE3`, `0xE4`, `0xEB`, `0xEC`, `0xED` fall
through to the panic arm). -/
def exec_Ex (op : Nat) (s : CPU) (m : MMU) : Except Halt (CPU × MMU × Nat) :=
  match op &&& 0x0F with
  | 0x0 =>
    let gb := s.get_byte m
    let x := gb.1
    let s := gb.2
    .ok (s, m.write_byte (0xFF00 ||| x) s.a, 12)
  | 0x1 =>
    let pp := s.pop_stack m
    let x := pp.1
    let s := pp.2
    .ok (s.set_hl x, m, 12)
  | 0x2 => .ok (s, m.write_byte (0xFF00 ||| s.c) s.a, 8)
  | 0x3 => .error (.notImplemented op)
  | 0x4 => .error (.notImplemented op)
  | 0x5 =>
    let pm := s.push_stack m s.hl
    let s := pm.1
    let m := pm.2
    .ok (s, m, 16)
  | 0x6 =>
    let gb := s.get_byte m
    let x := gb.1
    let s := gb.2
    let s := { s with a := s.a &&& x }
    let s := s.set_z_flag (s.a == 0x00)
    let s := s.set_n_flag false
    let s := s.set_h_flag true
    let s := s.set_c_flag false
    .ok (s, m, 8)
  | 0x7 =>
    let pm := s.push_stack m s.pc
    let s := pm.1
    let m := pm.2
    .ok ({ s with pc := 0x0020 }, m, 16)
  | 0x8 =>
    let gb := s.get_byte m
    let x := gb.1
    let s := gb.2
    let s := s.set_z_flag false
    let s := s.set_n_flag false
    let s := s.set_h_flag (u8_check_half_carry_add (s.sp % 256) x 0x00)
    let s := s.set_c_flag (u8_check_carry_add (s.sp % 256) x 0x00)
    let s := { s with sp := wadd16_i8 s.sp x }
    .ok (s, m, 16)
  | 0x9 => .ok ({ s with pc := s.hl }, m, 4)
  | 0xA =>
    let gb := s.get_byte m
    let lo := gb.1
    let s := gb.2
    let gb := s.get_byte m
    let hi := gb.1
    let s := gb.2
    let address := lo ||| (hi <<< 8)
    .ok (s, m.write_byte address s.a, 16)
  | 0xB => .error (.notImplemented op)
  | 0xC => .error (.notImplemented op)
  | 0xD => .error (.notImplemented op)
  | 0xE =>
    let gb := s.get_byte m
    let x := gb.1
    let s := gb.2
    let s := { s with a := s.a ^^^ x }
    let s := s.set_z_flag (s.a == 0x00)
    let s := s.set_n_flag false
    let s := s.set_h_flag false
    let s := s.set_c_flag false
    .ok (s, m, 8)
  | _ =>
    let pm := s.push_stack m s.pc
    let s := pm.1
    let m := pm.2
    .ok ({ s with pc := 0x0028 }, m, 16)

/-- opcodes `0xF0`–`0xFF` (`0xF4`, `0xFC`, `0xFD` fall through to the panic
arm). -/
def exec_Fx (op : Nat) (s : CPU) (m : MMU) : Except Halt (CPU × MMU × Nat) :=
  match op &&& 0x0F with
  | 0x0 =>
    let gb := s.get_byte m
    let x := gb.1
    let s := gb.2
    .ok ({ s with a := m.read_byte (0xFF00 ||| x) }, m, 12)
  | 0x1 =>
    let pp := s.pop_stack m
    let x := pp.1
    let s := pp.2
    .ok (s.set_af x, m, 12)
  | 0x2 => .ok ({ s with a := m.read_byte (0xFF00 ||| s.c) }, m, 8)
  | 0x3 => .ok ({ s with ime := false, ime_scheduled := false }, m, 4)
  | 0x4 => .error (.notImplemented op)
  | 0x5 =>
    let pm := s.push_stack m s.af
    let s := pm.1
    let m := pm.2
    .ok (s, m, 16)
  | 0x6 =>
    let gb := s.get_byte m
    let x := gb.1
    let s := gb.2
    let s := { s with a := s.a ||| x }
    let s := s.set_z_flag (s.a == 0x00)
    let s := s.set_n_flag false
    let s := s.set_h_flag false
    let s := s.set_c_flag false
    .ok (s, m, 8)
  | 0x7 =>
    let pm := s.push_stack m s.pc
    let s := pm.1
    let m := pm.2
    .ok ({ s with pc := 0x0030 }, m, 16)
  | 0x8 =>
    let gb := s.get_byte m
    let x := gb.1
    let s := gb.2
    let s := s.set_z_flag false
    let s := s.set_n_flag false
    let s := s.set_h_flag (u8_check_half_carry_add (s.sp % 256) x 0x00)
    let s := s.set_c_flag (u8_check_carry_add (s.sp % 256) x 0x00)
    let s := s.set_hl (wadd16_i8 s.sp x)
    .ok (s, m, 12)
  | 0x9 => .ok ({ s with sp := s.hl }, m, 8)
  | 0xA =>
    let gb := s.get_byte m
    let lo := gb.1
    let s := gb.2
    let gb := s.get_byte m
    let hi := gb.1
    let s := gb.2
    let address := lo ||| (hi <<< 8)
    .ok ({ s with a := m.read_byte address }, m, 16)
  | 0xB => .ok ({ s with ime_scheduled := true }, m, 4)
  | 0xC => .error (.notImplemented op)
  | 0xD => .error (.notImplemented op)
  | 0xE =>
    let gb := s.get_byte m
    let x := gb.1
    let s := gb.2
    let s := s.set_z_flag (s.a == x)
    let s := s.set_n_flag true
    let s := s.set_h_flag (u8_check_half_carry_sub s.a x 0x00)
    let s := s.set_c_flag (u8_check_carry_sub s.a x 0x00)
    .ok (s, m, 8)
  | _ =>
    let pm := s.push_stack m s.pc
    let s := pm.1
    let m := pm.2
    .ok ({ s with pc := 0x0038 }, m, 16)

/-- the body of the big `match opcode` in `CPU::execute_next`, split by the
opcode's high nibble; values `≥ 0x100` cannot occur for a fetched byte and
take the panic arm. -/
def CPU.execute_opcode (op : Nat) (s : CPU) (m : MMU) : Except Halt (CPU × MMU × Nat) :=
  match op >>> 4 with
  | 0x0 => exec_0x op s m
  | 0x1 => exec_1x op s m
  | 0x2 => exec_2x op s m
  | 0x3 => exec_3x op s m
  | 0x4 => exec_4x op s m
  | 0x5 => exec_5x op s m
  | 0x6 => exec_6x op s m
  | 0x7 => exec_7x op s m
  | 0x8 => exec_8x op s m
  | 0x9 => exec_9x op s m
  | 0xA => exec_Ax op s m
  | 0xB => exec_Bx op s m
  | 0xC => exec_Cx op s m
  | 0xD => exec_Dx op s m
  | 0xE => exec_Ex op s m
  | 0xF => exec_Fx op s m
  | _ => .error (.notImplemented op)

/-- `CPU::execute_next` (the `DEBUG_FLAG` trace and the serial `print!`
are I/O only and omitted; the serial hook's clearing of `FF02` is kept). -/
def CPU.execute_next (s : CPU) (m : MMU) : Except Halt (CPU × MMU × Nat) :=
  let r := s.execute_interrupts m
  let s := r.1
  let m := r.2.1
  let cycles := r.2.2
  if cycles > 0 then .ok (s, m, cycles)
  else if s.low_power_mode then .ok (s, m, 4)
  else
    let gb := s.get_byte m
    let opcode := gb.1
    let s := gb.2
    match s.execute_opcode opcode m with
    | .error e => .error e
    | .ok (s, m, cycles) =>
      let s :=
        if s.ime_scheduled && opcode != 0xFB then
          { s with ime := true, ime_scheduled := false }
        else s
      let m := if m.read_byte 0xFF02 = 0x81 then m.write_byte 0xFF02 0x00 else m
      .ok (s, m, cycles)

/-! ## `src/ppu.rs` -/

/-- `Modes`. -/
inductive Modes where
  | HBLANK
  | VBLANK
  | OAMSCAN
  | RENDER
  deriving DecidableEq, Repr

/-- `Modes as u8` (the discriminant values of the Rust enum). -/
def Modes.toNat : Modes → Nat
  | .HBLANK => 0
  | .VBLANK => 1
  | .OAMSCAN => 2
  | .RENDER => 3

/-- `Modes::from<u8>`; values `≥ 4` cannot occur (`unreachable!` in the
source) and the default arm here is arbitrary. -/
def Modes.fromNat (value : Nat) : Modes :=
  match value with
  | 0 => .HBLANK
  | 1 => .VBLANK
  | 2 => .OAMSCAN
  | _ => .RENDER

/-- `SpriteFifoData`. -/
structure SpriteFifoData where
  color : Nat
  palette_address : Nat
  bg_obj_priority_flag : Bool
  deriving DecidableEq, Repr

/-- `WIDTH` (`main.rs`). -/
def WIDTH : Nat := 160

/-- `HEIGHT` (`main.rs`). -/
def HEIGHT : Nat := 144

/-- `PPU` (the fixed-size `frame_buffer` array is modelled as a total
function; `VecDeque`s are modelled as lists with the front at the head). -/
structure PPU where
  frame_buffer : Nat → Nat
  frame_ready : Bool
  background_fifo : List Nat
  sprite_fifo : List SpriteFifoData
  sprite_buffer : List Nat
  interrupt_triggered : Bool
  cycles_waste : Nat
  cycles_spent : Nat
  mode : Modes
  wy : Nat
  wx : Nat
  ly : Nat
  lx : Nat
  w_present : Bool
  w_ly : Nat
  w_lx : Nat

/-- `PPU::MAX_CYCLES_PER_SCANLINE`. -/
def MAX_CYCLES_PER_SCANLINE : Nat := 456

/-- `PPU::get_tile_row`: entry `j` of the row takes bit `7 - j` of each
byte (`res[res.len() - 1 - bit]` in the source). -/
def get_tile_row (a b : Nat) : List Nat :=
  (List.range 8).map fun j => 2 * ((b >>> (7 - j)) &&& 1) + ((a >>> (7 - j)) &&& 1)

/-- `PPU::palette_to_color`, returning the ARGB value of the `Color` enum;
the selector is `(palette >> (2 * color_id)) & 3 ≤ 3`, so the default arm is
the `3 => Color::Black` case. -/
def palette_to_color (palette color_id : Nat) : Nat :=
  match (palette >>> (2 * color_id)) &&& 3 with
  | 0 => 0x00fafbf6
  | 1 => 0x00c6b7be
  | 2 => 0x00565a75
  | _ => 0x000f0f1b

/-- the `next_mode` computation at the top of `PPU::update_mode`: the mode
state machine (the Rust `match` with its guards, in order).  The
fall-through `unreachable!` is the `unreachableState` halt. -/
def PPU.next_mode (p : PPU) : Except Halt Modes :=
  if p.mode = .VBLANK ∧ p.ly = 0 ∧ p.cycles_spent = 0 then .ok .OAMSCAN
  else if p.mode = .OAMSCAN ∧ p.ly < 0x90 ∧ p.cycles_spent < 0x50 then .ok .OAMSCAN
  else if p.mode = .OAMSCAN ∧ p.ly < 0x90 ∧ p.cycles_spent = 80 then .ok .RENDER
  else if p.mode = .RENDER ∧ p.ly < 0x90 then
    .ok (if p.lx < 0xA0 then .RENDER else .HBLANK)
  else if p.mode = .HBLANK ∧ p.ly < 0x90 ∧ p.cycles_spent = 0 then .ok .OAMSCAN
  else if p.mode = .HBLANK ∧ p.cycles_spent = 0 then .ok .VBLANK
  else if p.mode = .HBLANK ∧ p.ly < 0x90 then .ok .HBLANK
  else if p.mode = .VBLANK ∧ 0x90 ≤ p.ly ∧ p.ly < 0x9A then .ok .VBLANK
  else .error .unreachableState

/-- the rest of `PPU::update_mode`: the STAT mode-bits write, the per-mode
entry actions and the STAT interrupt-select check. -/
def PPU.update_mode (p : PPU) (m : MMU) : Except Halt (PPU × MMU) :=
  match p.next_mode with
  | .error e => .error e
  | .ok mode =>
    let prev_mode := p.mode
    let p := { p with mode := mode }
    if p.mode = prev_mode then .ok (p, m)
    else
      let stat := m.read_byte 0xFF41
      let m := m.write_byte 0xFF41 ((stat &&& 0xFC) ||| p.mode.toNat)
      let pm2 :=
        match p.mode with
        | .OAMSCAN => ({ p with cycles_waste := p.cycles_waste + 79 }, m)
        | .RENDER => ({ p with cycles_waste := p.cycles_waste + 12 }, m)
        | .VBLANK =>
          ({ p with w_ly := 0, frame_ready := true }, m.request_interrupt 0)
        | _ => (p, m)
      let p := pm2.1
      let m := pm2.2
      if p.mode ≠ .RENDER ∧ !p.interrupt_triggered ∧
          (stat >>> (3 + p.mode.toNat)) &&& 0x01 = 0x01 then
        .ok ({ p with interrupt_triggered := true }, m.request_interrupt 1)
      else .ok (p, m)

/-- `PPU::find_object_address`: the first sprite-buffer entry whose
horizontal span covers the current `LX`. -/
def PPU.find_object_address (p : PPU) (m : MMU) : Option Nat :=
  p.sprite_buffer.find? fun address =>
    let obj_x := m.read_byte (address + 1)
    obj_x ≤ p.lx + 8 && p.lx < obj_x

/-- `PPU::fill_sprite_fifo`.  When no sprite covers `LX` the source pushes a
single transparent entry.  In the found case, `u8` subtractions that cannot
underflow on the Rust side (`lx + 8 - obj_x`, `ly + 16 - obj_y`) are `Nat`
truncating subtraction, and `pixels[idx]` is `List.getD` (the index is
`< 8` whenever the loop runs). -/
def PPU.fill_sprite_fifo (p : PPU) (m : MMU) : PPU :=
  match p.find_object_address m with
  | none =>
    { p with sprite_fifo := p.sprite_fifo ++
        [{ color := 0, palette_address := 0xFF48, bg_obj_priority_flag := true }] }
  | some obj_addr =>
    let p := { p with cycles_waste := p.cycles_waste + 6 }
    let lcdc := m.read_byte 0xFF40
    let obj_enable_flag := is_bit_set lcdc 1
    let obj_size := is_bit_set lcdc 2
    let obj_y := m.read_byte obj_addr
    let obj_x := m.read_byte (obj_addr + 1)
    let obj_tile_index := m.read_byte (obj_addr + 2)
    let obj_attr := m.read_byte (obj_addr + 3)
    let bg_obj_priority_flag := is_bit_set obj_attr 7
    let y_flip := is_bit_set obj_attr 6
    let x_flip := is_bit_set obj_attr 5
    let obj_palette_address := if is_bit_set obj_attr 4 then 0xFF49 else 0xFF48
    let obj_tile_data_address := 0x8000 + 16 *
      (if obj_size then
        (if y_flip ^^ decide (p.ly + 8 < obj_y) then obj_tile_index &&& 0xFE
         else obj_tile_index ||| 0x01)
       else obj_tile_index)
    let obj_data_index := (p.ly + 16 - obj_y) % 8
    let obj_data_index := if y_flip then 7 - obj_data_index else obj_data_index
    let obj_data_address := obj_tile_data_address + obj_data_index * 2
    let pixels := get_tile_row (m.read_byte obj_data_address) (m.read_byte (obj_data_address + 1))
    let pixels := if x_flip then pixels.reverse else pixels
    let entries := ((List.range 8).drop (p.lx + 8 - obj_x)).map fun idx =>
      ({ color := if obj_enable_flag then pixels.getD idx 0 else 0
         palette_address := obj_palette_address
         bg_obj_priority_flag := bg_obj_priority_flag } : SpriteFifoData)
    { p with sprite_fifo := p.sprite_fifo ++ entries }

/-- `PPU::fill_background_fifo`.  The trailing `while` loop that pops down
to `remaining` entries is expressed with `List.drop`; each dropped pixel
charges one `cycles_waste`, as in the source. -/
def PPU.fill_background_fifo (p : PPU) (m : MMU) : PPU :=
  let scy := m.read_byte 0xFF42
  let scx := m.read_byte 0xFF43
  let lcdc := m.read_byte 0xFF40
  let bg_enable := is_bit_set lcdc 0
  let is_window := is_bit_set lcdc 5 && decide (p.ly ≥ p.wy) && decide (p.lx + 7 ≥ p.wx)
  let tile_map_address : Nat :=
    if (if is_window then is_bit_set lcdc 6 else is_bit_set lcdc 3) then 0x9C00 else 0x9800
  let tile_y := (if is_window then p.w_ly else wadd8 scy p.ly) / 8
  let tile_x := (if is_window then wsub8 (p.lx + 7) p.wx else wadd8 scx p.lx) / 8
  let tile_no := m.read_byte (tile_map_address + 32 * tile_y + tile_x)
  let tile_address :=
    (if is_bit_set lcdc 4 then 0x8000 + 16 * tile_no
     else wadd16 0x9000 (16 * i8_as_u16 tile_no)) +
    2 * ((if is_window then p.w_ly else wadd8 scy p.ly) % 8)
  let lb := m.read_byte tile_address
  let hb := m.read_byte (tile_address + 1)
  let pixels := get_tile_row lb hb
  let p := { p with background_fifo :=
      p.background_fifo ++ pixels.map fun px => if bg_enable then px else 0 }
  if p.lx = 0 then
    let remaining := if is_window then 1 + p.wx else 8 - scx % 8
    let drop_count := p.background_fifo.length - remaining
    { p with cycles_waste := p.cycles_waste + drop_count
             background_fifo := p.background_fifo.drop drop_count }
  else p

/-- the pixel-mixing tail of `PPU::render`: pop one background pixel and one
sprite entry (`pop_front().unwrap()` halts with `unwrapNone` on an empty
queue), mix, and write the framebuffer — the `frame_buffer[ly * WIDTH + lx]`
array write halts with `frameBufferOutOfBounds` when the index is outside
the `WIDTH * HEIGHT` array, as the Rust indexing would. -/
def PPU.render_pixel (p : PPU) (m : MMU) : Except Halt PPU :=
  match p.background_fifo, p.sprite_fifo with
  | bg_pixel :: bg_rest, obj_data :: sp_rest =>
    let p := { p with background_fifo := bg_rest, sprite_fifo := sp_rest }
    let color :=
      if obj_data.color == 0 || (obj_data.bg_obj_priority_flag && bg_pixel > 0) then
        palette_to_color (m.read_byte 0xFF47) bg_pixel
      else
        palette_to_color (m.read_byte obj_data.palette_address) obj_data.color
    if p.ly * WIDTH + p.lx < WIDTH * HEIGHT then
      .ok { p with frame_buffer := writeMem p.frame_buffer (p.ly * WIDTH + p.lx) color
                   lx := p.lx + 1 }
    else .error .frameBufferOutOfBounds
  | _, _ => .error .unwrapNone

/-- `PPU::render`: window start, background fill, sprite fill with its early
return, then the pixel-mixing tail. -/
def PPU.render (p : PPU) (m : MMU) : Except Halt PPU :=
  let p :=
    if !p.w_present && is_bit_set (m.read_byte 0xFF40) 5 &&
        decide (p.ly ≥ p.wy) && decide (p.lx + 7 ≥ p.wx) then
      { p with background_fifo := [], w_present := true
               cycles_waste := p.cycles_waste + 6, w_lx := p.lx }
    else p
  let p := if p.background_fifo.isEmpty then p.fill_background_fifo m else p
  if p.sprite_fifo.isEmpty then
    let p := p.fill_sprite_fifo m
    if p.cycles_waste > 0 then
      .ok (if p.lx ≠ 0 ∧ p.background_fifo.length < 6 then
             { p with cycles_waste := p.cycles_waste + (6 - p.background_fifo.length) }
           else p)
    else p.render_pixel m
  else p.render_pixel m

/-- `PPU::oamscan`: the `while` loop over the 40 OAM entries (step 4,
stopping at 10 buffered sprites) as a fold. -/
def PPU.oamscan (p : PPU) (m : MMU) : PPU :=
  let obj_size := if is_bit_set (m.read_byte 0xFF40) 2 then 16 else 8
  let buffer := (List.range 40).foldl
    (fun buf i =>
      let address := 0xFE00 + 4 * i
      let obj_y := m.read_byte address
      if buf.length < 10 ∧ obj_y ≤ p.ly + 16 ∧ p.ly + 16 < obj_y + obj_size then
        buf ++ [address]
      else buf)
    p.sprite_buffer
  { p with sprite_buffer := buffer }

/-- `PPU::process`. -/
def PPU.process (p : PPU) (m : MMU) : Except Halt PPU :=
  if p.cycles_waste > 0 then .ok { p with cycles_waste := p.cycles_waste - 1 }
  else
    match p.mode with
    | .OAMSCAN => .ok (p.oamscan m)
    | .RENDER => p.render m
    | _ => .ok p

/-- `PPU::setup_for_new_scanline`. -/
def PPU.setup_for_new_scanline (p : PPU) (m : MMU) : PPU × MMU :=
  let p := { p with
    interrupt_triggered := false
    background_fifo := []
    sprite_fifo := []
    sprite_buffer := []
    w_ly := p.w_ly + (if p.w_present then 1 else 0)
    w_lx := 0
    w_present := false
    wy := m.read_byte 0xFF4A
    wx := m.read_byte 0xFF4B }
  let lyc := m.read_byte 0xFF45
  let p := { p with ly := (p.ly + 1) % 0x9A, lx := 0 }
  let m := m.write_byte 0xFF44 p.ly
  if lyc = p.ly then
    ({ p with interrupt_triggered := true }, m.request_interrupt 1)
  else (p, m)

/-- `PPU::tick`. -/
def PPU.tick (p : PPU) (m : MMU) : Except Halt (PPU × MMU) :=
  let p := if p.frame_ready then { p with frame_ready := false } else p
  match p.update_mode m with
  | .error e => .error e
  | .ok (p, m) =>
    match p.process m with
    | .error e => .error e
    | .ok p =>
      let p := { p with cycles_spent := (p.cycles_spent + 1) % MAX_CYCLES_PER_SCANLINE }
      if p.cycles_spent = 0 then .ok (p.setup_for_new_scanline m)
      else .ok (p, m)

/-! ## `src/cartridge.rs` (MBC3)

The cartridge byte stores (`rom_data`, `ram_data` `Vec<u8>`s) are modelled
as total functions.  The comment above the Rust `MBC3` struct documents the
`2000-3FFF` register as "7 bits of ROM Bank Number". -/

/-- `MBC3`. -/
structure MBC3 where
  ram_enable : Bool
  ram_bank_register : Nat
  rom_bank_register : Nat
  ram_data : Nat → Nat
  rom_data : Nat → Nat

/-- `MBC3::new` (registers clear, RAM zeroed). -/
def MBC3.new (data : Nat → Nat) : MBC3 :=
  { ram_enable := false, ram_bank_register := 0x00, rom_bank_register := 0x00
    ram_data := fun _ => 0, rom_data := data }

/-- `MBC3::read_byte`; RTC register selection (`0x04..` after the `& 0x0F`
mask) is the `unimplemented!("Real Time Clock!")` halt, other addresses
outside the cartridge ranges are the `unreachable!` arm. -/
def MBC3.read_byte (c : MBC3) (address : Nat) : Except Halt Nat :=
  if address < 0x4000 then .ok (c.rom_data address)
  else if address < 0x8000 then
    let rom_bank_number :=
      match c.rom_bank_register &&& 0x07 with
      | 0x00 => 0x01
      | val => val
    .ok (c.rom_data (0x4000 * rom_bank_number + address - 0x4000))
  else if 0xA000 ≤ address ∧ address < 0xC000 then
    if c.ram_enable then
      let val := c.ram_bank_register &&& 0x0F
      if val < 0x04 then .ok (c.ram_data (0x2000 * val + address - 0xA000))
      else .error .rtcNotImplemented
    else .ok 0xFF
  else .error .unreachableState

/-- `MBC3::write_byte`. -/
def MBC3.write_byte (c : MBC3) (address value : Nat) : Except Halt MBC3 :=
  if address < 0x2000 then .ok { c with ram_enable := (value &&& 0x0F) == 0x0A }
  else if address < 0x4000 then .ok { c with rom_bank_register := value }
  else if address < 0x6000 then .ok { c with ram_bank_register := value }
  else if address < 0x8000 then .ok c
  else if 0xA000 ≤ address ∧ address < 0xC000 then
    if !c.ram_enable then .ok c
    else
      let val := c.ram_bank_register &&& 0x0F
      if val < 0x04 then
        .ok { c with ram_data := writeMem c.ram_data (0x2000 * val + address - 0xA000) value }
      else .error .rtcNotImplemented
  else .error .unreachableState

/-! ## concrete states used by witnesses and counterexamples -/

/-- an MMU whose memory is identically zero. -/
def mmu0 : MMU :=
  { memory := fun _ => 0, div_counter := 0, prev_and_result := false
    dma_cycles_counter := 0, joypad := ⟨0xFF⟩ }

/-- an MMU whose memory holds `0xD3` everywhere. -/
def mmuD3 : MMU :=
  { memory := fun _ => 0xD3, div_counter := 0, prev_and_result := false
    dma_cycles_counter := 0, joypad := ⟨0xFF⟩ }

/-- the post-boot CPU at `pc = 0x0100`. -/
def cpuC7a : CPU := CPU.new

/-- the post-boot CPU moved to `pc = 0x0200`; otherwise identical to
[cpuC7a]. -/
def cpuC7b : CPU := { CPU.new with pc := 0x0200 }

/-- a cartridge ROM image in which every byte holds the index of the
`0x4000`-sized bank it belongs to. -/
def romC2 : Nat → Nat := fun n => n / 0x4000

/-- a PPU in `RENDER` mode with an empty sprite buffer and empty FIFOs. -/
def ppuC4 : PPU :=
  { frame_buffer := fun _ => 0, frame_ready := false, background_fifo := []
    sprite_fifo := [], sprite_buffer := [], interrupt_triggered := false
    cycles_waste := 0, cycles_spent := 0, mode := .RENDER, wy := 0, wx := 0
    ly := 0, lx := 0, w_present := false, w_ly := 0, w_lx := 0 }

/-- an MMU whose memory holds `0x27` everywhere. -/
def mmu27 : MMU :=
  { memory := fun _ => 0x27, div_counter := 0, prev_and_result := false
    dma_cycles_counter := 0, joypad := ⟨0xFF⟩ }

/-- the start state of the spec's DAA sample: `A = 0x15`, all flags clear. -/
def cpuC3 : CPU := { CPU.new with a := 0x15, f := 0x00, pc := 0 }

/-- an MMU about to see a timer falling edge with `TIMA = 0xFF`: memory is
all `0xFF` (so TAC selects DIV bit 7 with the timer enabled), the DIV
counter is zero and `prev_and_result` is set. -/
def mmuC8 : MMU :=
  { memory := fun _ => 0xFF, div_counter := 0, prev_and_result := true
    dma_cycles_counter := 0, joypad := ⟨0xFF⟩ }

/-- a PPU one cycle before a scanline boundary: `HBLANK`, `LY = 4`,
`cycles_spent = 455`. -/
def ppuC5 : PPU :=
  { frame_buffer := fun _ => 0, frame_ready := false, background_fifo := []
    sprite_fifo := [], sprite_buffer := [], interrupt_triggered := false
    cycles_waste := 0, cycles_spent := 455, mode := .HBLANK, wy := 0, wx := 0
    ly := 4, lx := 0, w_present := false, w_ly := 0, w_lx := 0 }

/-- an MMU whose memory holds `5` in LYC (`FF45`) and `0` elsewhere. -/
def mmuC5 : MMU :=
  { memory := fun a => if a = 0xFF45 then 5 else 0, div_counter := 0
    prev_and_result := false, dma_cycles_counter := 0, joypad := ⟨0xFF⟩ }

/-- the eleven opcodes that are undefined on the DMG. -/
def illegal_opcodes : List Nat :=
  [0xD3, 0xDB, 0xDD, 0xE3, 0xE4, 0xEB, 0xEC, 0xED, 0xF4, 0xFC, 0xFD]

/-- the T-cycle count reported by an opcode-execution result (`0` for a
halted execution). -/
def cyclesOf (r : Except Halt (CPU × MMU × Nat)) : Nat :=
  match r with
  | .ok x => x.2.2
  | .error _ => 0

/-- the canonical DMG cycle table for CB-prefixed opcodes, written from the
spec: every register operand costs 8; an `(HL)` operand costs 16, except
`BIT b, (HL)` which costs 12. -/
def cbCycles (cb : Nat) : Nat :=
  if cb % 8 = 6 then (if 0x40 ≤ cb ∧ cb ≤ 0x7F then 12 else 16) else 8

/-- the canonical DMG cycle table for unprefixed opcodes, written from the
spec: `(taken, not-taken)` pairs for the conditional jumps, calls, and
returns, an equal pair elsewhere.  The eleven undefined opcodes carry the
dummy entry `(0, 0)`.  The default arm covers `0x40`–`0xBF`: `LD` with an
`(HL)` destination (`0x70`–`0x77`) or any `(HL)` operand (`op % 8 = 6`)
costs 8, `HALT` (`0x76`) and the register-to-register cases cost 4. -/
def dmgCycles (op : Nat) : Nat × Nat :=
  match op with
  | 0x00 => (4, 4)
  | 0x01 => (12, 12)
  | 0x02 => (8, 8)
  | 0x03 => (8, 8)
  | 0x04 => (4, 4)
  | 0x05 => (4, 4)
  | 0x06 => (8, 8)
  | 0x07 => (4, 4)
  | 0x08 => (20, 20)
  | 0x09 => (8, 8)
  | 0x0A => (8, 8)
  | 0x0B => (8, 8)
  | 0x0C => (4, 4)
  | 0x0D => (4, 4)
  | 0x0E => (8, 8)
  | 0x0F => (4, 4)
  | 0x10 => (4, 4)
  | 0x11 => (12, 12)
  | 0x12 => (8, 8)
  | 0x13 => (8, 8)
  | 0x14 => (4, 4)
  | 0x15 => (4, 4)
  | 0x16 => (8, 8)
  | 0x17 => (4, 4)
  | 0x18 => (12, 12)
  | 0x19 => (8, 8)
  | 0x1A => (8, 8)
  | 0x1B => (8, 8)
  | 0x1C => (4, 4)
  | 0x1D => (4, 4)
  | 0x1E => (8, 8)
  | 0x1F => (4, 4)
  | 0x20 => (12, 8)
  | 0x21 => (12, 12)
  | 0x22 => (8, 8)
  | 0x23 => (8, 8)
  | 0x24 => (4, 4)
  | 0x25 => (4, 4)
  | 0x26 => (8, 8)
  | 0x27 => (4, 4)
  | 0x28 => (12, 8)
  | 0x29 => (8, 8)
  | 0x2A => (8, 8)
  | 0x2B => (8, 8)
  | 0x2C => (4, 4)
  | 0x2D => (4, 4)
  | 0x2E => (8, 8)
  | 0x2F => (4, 4)
  | 0x30 => (12, 8)
  | 0x31 => (12, 12)
  | 0x32 => (8, 8)
  | 0x33 => (8, 8)
  | 0x34 => (12, 12)
  | 0x35 => (12, 12)
  | 0x36 => (12, 12)
  | 0x37 => (4, 4)
  | 0x38 => (12, 8)
  | 0x39 => (8, 8)
  | 0x3A => (8, 8)
  | 0x3B => (8, 8)
  | 0x3C => (4, 4)
  | 0x3D => (4, 4)
  | 0x3E => (8, 8)
  | 0x3F => (4, 4)
  | 0x76 => (4, 4)
  | 0xC0 => (20, 8)
  | 0xC1 => (12, 12)
  | 0xC2 => (16, 12)
  | 0xC3 => (16, 16)
  | 0xC4 => (24, 12)
  | 0xC5 => (16, 16)
  | 0xC6 => (8, 8)
  | 0xC7 => (16, 16)
  | 0xC8 => (20, 8)
  | 0xC9 => (16, 16)
  | 0xCA => (16, 12)
  | 0xCB => (4, 4)
  | 0xCC => (24, 12)
  | 0xCD => (24, 24)
  | 0xCE => (8, 8)
  | 0xCF => (16, 16)
  | 0xD0 => (20, 8)
  | 0xD1 => (12, 12)
  | 0xD2 => (16, 12)
  | 0xD3 => (0, 0)
  | 0xD4 => (24, 12)
  | 0xD5 => (16, 16)
  | 0xD6 => (8, 8)
  | 0xD7 => (16, 16)
  | 0xD8 => (20, 8)
  | 0xD9 => (16, 16)
  | 0xDA => (16, 12)
  | 0xDB => (0, 0)
  | 0xDC => (24, 12)
  | 0xDD => (0, 0)
  | 0xDE => (8, 8)
  | 0xDF => (16, 16)
  | 0xE0 => (12, 12)
  | 0xE1 => (12, 12)
  | 0xE2 => (8, 8)
  | 0xE3 => (0, 0)
  | 0xE4 => (0, 0)
  | 0xE5 => (16, 16)
  | 0xE6 => (8, 8)
  | 0xE7 => (16, 16)
  | 0xE8 => (16, 16)
  | 0xE9 => (4, 4)
  | 0xEA => (16, 16)
  | 0xEB => (0, 0)
  | 0xEC => (0, 0)
  | 0xED => (0, 0)
  | 0xEE => (8, 8)
  | 0xEF => (16, 16)
  | 0xF0 => (12, 12)
  | 0xF1 => (12, 12)
  | 0xF2 => (8, 8)
  | 0xF3 => (4, 4)
  | 0xF4 => (0, 0)
  | 0xF5 => (16, 16)
  | 0xF6 => (8, 8)
  | 0xF7 => (16, 16)
  | 0xF8 => (12, 12)
  | 0xF9 => (8, 8)
  | 0xFA => (16, 16)
  | 0xFB => (4, 4)
  | 0xFC => (0, 0)
  | 0xFD => (0, 0)
  | 0xFE => (8, 8)
  | 0xFF => (16, 16)
  | n => if 0x70 ≤ n ∧ n ≤ 0x77 then (8, 8) else if n % 8 = 6 then (8, 8) else (4, 4)

/-! ## helper lemmas -/

theorem or_pow_and15 (f k : Nat) (h : 4 ≤ k) : (f ||| (1 <<< k)) &&& 15 = f &&& 15 := by
  apply Nat.eq_of_testBit_eq
  intro i
  simp only [Nat.testBit_and, Nat.testBit_or]
  have hk : Nat.testBit (1 <<< k) i = decide (k = i) := by
    rw [Nat.shiftLeft_eq, one_mul, Nat.testBit_two_pow]
  have h15 : Nat.testBit 15 i = decide (i < 4) := by
    rw [show (15 : Nat) = 2 ^ 4 - 1 from by norm_num, Nat.testBit_two_pow_sub_one]
  rw [hk, h15]
  by_cases hik : k = i
  · subst hik
    rw [decide_eq_false (by omega : ¬ (k < 4))]
    simp
  · rw [decide_eq_false hik]
    simp

theorem and_mask_and15 (f k : Nat) (h4 : 4 ≤ k) (h8 : k < 8) :
    (f &&& (0xFF ^^^ (1 <<< k))) &&& 15 = f &&& 15 := by
  rw [Nat.land_assoc]
  congr 1
  apply Nat.eq_of_testBit_eq
  intro i
  simp only [Nat.testBit_and, Nat.testBit_xor]
  have hsh : Nat.testBit (1 <<< k) i = decide (k = i) := by
    rw [Nat.shiftLeft_eq, one_mul, Nat.testBit_two_pow]
  have h15 : Nat.testBit 15 i = decide (i < 4) := by
    rw [show (15 : Nat) = 2 ^ 4 - 1 from by norm_num, Nat.testBit_two_pow_sub_one]
  have hFF : Nat.testBit 0xFF i = decide (i < 8) := by
    rw [show (0xFF : Nat) = 2 ^ 8 - 1 from by norm_num, Nat.testBit_two_pow_sub_one]
  rw [hsh, h15, hFF]
  by_cases hi4 : i < 4
  · rw [decide_eq_true hi4, decide_eq_true (by omega : i < 8),
      decide_eq_false (by omega : ¬ (k = i))]
    simp
  · rw [decide_eq_false hi4]
    simp

theorem set_flag_f_and15 (s : CPU) (k : Nat) (v : Bool) (h4 : 4 ≤ k) (h8 : k < 8) :
    (s.set_flag k v).f &&& 15 = s.f &&& 15 := by
  unfold CPU.set_flag
  cases v
  · simpa using and_mask_and15 s.f k h4 h8
  · simpa using or_pow_and15 s.f k h4

theorem setz_f (s : CPU) (v : Bool) : (s.set_z_flag v).f &&& 15 = s.f &&& 15 :=
  set_flag_f_and15 s 7 v (by omega) (by omega)

theorem setn_f (s : CPU) (v : Bool) : (s.set_n_flag v).f &&& 15 = s.f &&& 15 :=
  set_flag_f_and15 s 6 v (by omega) (by omega)

theorem seth_f (s : CPU) (v : Bool) : (s.set_h_flag v).f &&& 15 = s.f &&& 15 :=
  set_flag_f_and15 s 5 v (by omega) (by omega)

theorem setc_f (s : CPU) (v : Bool) : (s.set_c_flag v).f &&& 15 = s.f &&& 15 :=
  set_flag_f_and15 s 4 v (by omega) (by omega)

theorem set_af_f_and15 (s : CPU) (x : Nat) : (s.set_af x).f &&& 15 = 0 := by
  show ((x &&& 0xFFF0) % 256) &&& 15 = 0
  rw [show (256 : Nat) = 2 ^ 8 from rfl, ← Nat.and_pow_two_sub_one_eq_mod,
    Nat.land_assoc, Nat.land_assoc,
    show ((2 ^ 8 - 1 : Nat) &&& 15) = 15 from by decide,
    show ((0xFFF0 : Nat) &&& 15) = 0 from by decide]
  simp

theorem cbWrite_f (s : CPU) (m : MMU) (idx x : Nat) : (cbWrite s m idx x).1.f = s.f := by
  unfold cbWrite
  split <;> rfl

theorem execute_prefixed_f (s : CPU) (m : MMU) (hf : s.f &&& 15 = 0) :
    (s.execute_prefixed m).1.f &&& 15 = 0 := by
  simp only [CPU.execute_prefixed]
  repeat' split
  all_goals first
    | (simp only [cbRLC, cbRRC, cbRL, cbRR, cbSLA, cbSRA, cbSWAP, cbSRL];
       rw [setc_f, seth_f, setn_f, setz_f, cbWrite_f]; exact hf)
    | (simp only [cbBIT]; rw [seth_f, setn_f, setz_f]; exact hf)
    | (simp only [cbRES, cbSET]; rw [cbWrite_f]; exact hf)

theorem and15_lt (op : Nat) : op &&& 15 < 16 := by
  rw [show (15 : Nat) = 2 ^ 4 - 1 from rfl, Nat.and_pow_two_sub_one_eq_mod]
  exact Nat.mod_lt _ (by norm_num)

theorem set_bc_f (s : CPU) (v : Nat) : (s.set_bc v).f = s.f := by
  cases s
  rfl

theorem set_de_f (s : CPU) (v : Nat) : (s.set_de v).f = s.f := by
  cases s
  rfl

theorem set_hl_f (s : CPU) (v : Nat) : (s.set_hl v).f = s.f := by
  cases s
  rfl

theorem get_byte_snd_f (s : CPU) (m : MMU) : ((s.get_byte m).2).f = s.f := by
  cases s
  rfl

theorem push_stack_fst_f (s : CPU) (m : MMU) (v : Nat) :
    (s.push_stack m v).1.f = s.f := by
  cases s
  rfl

theorem pop_stack_snd_f (s : CPU) (m : MMU) : ((s.pop_stack m).2).f = s.f := by
  cases s
  rfl

theorem exec_0x_f (op : Nat) (s : CPU) (m : MMU) (out : CPU × MMU × Nat)
    (hf : s.f &&& 15 = 0) (hok : exec_0x op s m = .ok out) : out.1.f &&& 15 = 0 := by
  unfold exec_0x at hok
  split at hok
  all_goals first
    | exact Except.noConfusion hok
    | (cases hok;
       try simp only [setz_f, setn_f, seth_f, setc_f, set_af_f_and15, set_bc_f, set_de_f,
         set_hl_f, get_byte_snd_f, push_stack_fst_f, pop_stack_snd_f];
       try exact hf;
       done)
    | ((split at hok <;>
        (cases hok;
         try simp only [setz_f, setn_f, seth_f, setc_f, set_af_f_and15, set_bc_f, set_de_f,
           set_hl_f, get_byte_snd_f, push_stack_fst_f, pop_stack_snd_f];
         try exact hf));
       done)
    | (cases hok;
       (repeat' split) <;>
         (try simp only [setz_f, setn_f, seth_f, setc_f, set_af_f_and15, set_bc_f, set_de_f,
           set_hl_f, get_byte_snd_f, push_stack_fst_f, pop_stack_snd_f];
          try exact hf);
       done)

theorem exec_1x_f (op : Nat) (s : CPU) (m : MMU) (out : CPU × MMU × Nat)
    (hf : s.f &&& 15 = 0) (hok : exec_1x op s m = .ok out) : out.1.f &&& 15 = 0 := by
  unfold exec_1x at hok
  split at hok
  all_goals first
    | exact Except.noConfusion hok
    | (cases hok;
       try simp only [setz_f, setn_f, seth_f, setc_f, set_af_f_and15, set_bc_f, set_de_f,
         set_hl_f, get_byte_snd_f, push_stack_fst_f, pop_stack_snd_f];
       try exact hf;
       done)
    | ((split at hok <;>
        (cases hok;
         try simp only [setz_f, setn_f, seth_f, setc_f, set_af_f_and15, set_bc_f, set_de_f,
           set_hl_f, get_byte_snd_f, push_stack_fst_f, pop_stack_snd_f];
         try exact hf));
       done)
    | (cases hok;
       (repeat' split) <;>
         (try simp only [setz_f, setn_f, seth_f, setc_f, set_af_f_and15, set_bc_f, set_de_f,
           set_hl_f, get_byte_snd_f, push_stack_fst_f, pop_stack_snd_f];
          try exact hf);
       done)

theorem exec_2x_f (op : Nat) (s : CPU) (m : MMU) (out : CPU × MMU × Nat)
    (hf : s.f &&& 15 = 0) (hok : exec_2x op s m = .ok out) : out.1.f &&& 15 = 0 := by
  obtain ⟨k, hk, hop⟩ : ∃ k, k < 16 ∧ op &&& 15 = k := ⟨_, and15_lt op, rfl⟩
  unfold exec_2x at hok
  rw [hop] at hok
  interval_cases k
  all_goals (try dsimp only [] at hok)
  all_goals first
    | exact Except.noConfusion hok
    | (cases hok;
       try simp only [setz_f, setn_f, seth_f, setc_f, set_af_f_and15, set_bc_f, set_de_f,
         set_hl_f, get_byte_snd_f, push_stack_fst_f, pop_stack_snd_f];
       try exact hf;
       done)
    | ((split at hok <;>
        (cases hok;
         try simp only [setz_f, setn_f, seth_f, setc_f, set_af_f_and15, set_bc_f, set_de_f,
           set_hl_f, get_byte_snd_f, push_stack_fst_f, pop_stack_snd_f];
         try exact hf));
       done)
    | (cases hok;
       (repeat' split) <;>
         (try simp only [setz_f, setn_f, seth_f, setc_f, set_af_f_and15, set_bc_f, set_de_f,
           set_hl_f, get_byte_snd_f, push_stack_fst_f, pop_stack_snd_f];
          try exact hf);
       done)
theorem exec_3x_f (op : Nat) (s : CPU) (m : MMU) (out : CPU × MMU × Nat)
    (hf : s.f &&& 15 = 0) (hok : exec_3x op s m = .ok out) : out.1.f &&& 15 = 0 := by
  obtain ⟨k, hk, hop⟩ : ∃ k, k < 16 ∧ op &&& 15 = k := ⟨_, and15_lt op, rfl⟩
  unfold exec_3x at hok
  rw [hop] at hok
  interval_cases k
  all_goals (try dsimp only [] at hok)
  all_goals first
    | exact Except.noConfusion hok
    | (cases hok;
       try simp only [setz_f, setn_f, seth_f, setc_f, set_af_f_and15, set_bc_f, set_de_f,
         set_hl_f, get_byte_snd_f, push_stack_fst_f, pop_stack_snd_f];
       try exact hf;
       done)
    | ((split at hok <;>
        (cases hok;
         try simp only [setz_f, setn_f, seth_f, setc_f, set_af_f_and15, set_bc_f, set_de_f,
           set_hl_f, get_byte_snd_f, push_stack_fst_f, pop_stack_snd_f];
         try exact hf));
       done)
    | (cases hok;
       (repeat' split) <;>
         (try simp only [setz_f, setn_f, seth_f, setc_f, set_af_f_and15, set_bc_f, set_de_f,
           set_hl_f, get_byte_snd_f, push_stack_fst_f, pop_stack_snd_f];
          try exact hf);
       done)
theorem exec_4x_f (op : Nat) (s : CPU) (m : MMU) (out : CPU × MMU × Nat)
    (hf : s.f &&& 15 = 0) (hok : exec_4x op s m = .ok out) : out.1.f &&& 15 = 0 := by
  unfold exec_4x at hok
  split at hok
  all_goals first
    | exact Except.noConfusion hok
    | (cases hok;
       try simp only [setz_f, setn_f, seth_f, setc_f, set_af_f_and15, set_bc_f, set_de_f,
         set_hl_f, get_byte_snd_f, push_stack_fst_f, pop_stack_snd_f];
       try exact hf;
       done)
    | ((split at hok <;>
        (cases hok;
         try simp only [setz_f, setn_f, seth_f, setc_f, set_af_f_and15, set_bc_f, set_de_f,
           set_hl_f, get_byte_snd_f, push_stack_fst_f, pop_stack_snd_f];
         try exact hf));
       done)
    | (cases hok;
       (repeat' split) <;>
         (try simp only [setz_f, setn_f, seth_f, setc_f, set_af_f_and15, set_bc_f, set_de_f,
           set_hl_f, get_byte_snd_f, push_stack_fst_f, pop_stack_snd_f];
          try exact hf);
       done)

theorem exec_5x_f (op : Nat) (s : CPU) (m : MMU) (out : CPU × MMU × Nat)
    (hf : s.f &&& 15 = 0) (hok : exec_5x op s m = .ok out) : out.1.f &&& 15 = 0 := by
  unfold exec_5x at hok
  split at hok
  all_goals first
    | exact Except.noConfusion hok
    | (cases hok;
       try simp only [setz_f, setn_f, seth_f, setc_f, set_af_f_and15, set_bc_f, set_de_f,
         set_hl_f, get_byte_snd_f, push_stack_fst_f, pop_stack_snd_f];
       try exact hf;
       done)
    | ((split at hok <;>
        (cases hok;
         try simp only [setz_f, setn_f, seth_f, setc_f, set_af_f_and15, set_bc_f, set_de_f,
           set_hl_f, get_byte_snd_f, push_stack_fst_f, pop_stack_snd_f];
         try exact hf));
       done)
    | (cases hok;
       (repeat' split) <;>
         (try simp only [setz_f, setn_f, seth_f, setc_f, set_af_f_and15, set_bc_f, set_de_f,
           set_hl_f, get_byte_snd_f, push_stack_fst_f, pop_stack_snd_f];
          try exact hf);
       done)

theorem exec_6x_f (op : Nat) (s : CPU) (m : MMU) (out : CPU × MMU × Nat)
    (hf : s.f &&& 15 = 0) (hok : exec_6x op s m = .ok out) : out.1.f &&& 15 = 0 := by
  unfold exec_6x at hok
  split at hok
  all_goals first
    | exact Except.noConfusion hok
    | (cases hok;
       try simp only [setz_f, setn_f, seth_f, setc_f, set_af_f_and15, set_bc_f, set_de_f,
         set_hl_f, get_byte_snd_f, push_stack_fst_f, pop_stack_snd_f];
       try exact hf;
       done)
    | ((split at hok <;>
        (cases hok;
         try simp only [setz_f, setn_f, seth_f, setc_f, set_af_f_and15, set_bc_f, set_de_f,
           set_hl_f, get_byte_snd_f, push_stack_fst_f, pop_stack_snd_f];
         try exact hf));
       done)
    | (cases hok;
       (repeat' split) <;>
         (try simp only [setz_f, setn_f, seth_f, setc_f, set_af_f_and15, set_bc_f, set_de_f,
           set_hl_f, get_byte_snd_f, push_stack_fst_f, pop_stack_snd_f];
          try exact hf);
       done)

theorem exec_7x_f (op : Nat) (s : CPU) (m : MMU) (out : CPU × MMU × Nat)
    (hf : s.f &&& 15 = 0) (hok : exec_7x op s m = .ok out) : out.1.f &&& 15 = 0 := by
  unfold exec_7x at hok
  split at hok
  all_goals first
    | exact Except.noConfusion hok
    | (cases hok;
       try simp only [setz_f, setn_f, seth_f, setc_f, set_af_f_and15, set_bc_f, set_de_f,
         set_hl_f, get_byte_snd_f, push_stack_fst_f, pop_stack_snd_f];
       try exact hf;
       done)
    | ((split at hok <;>
        (cases hok;
         try simp only [setz_f, setn_f, seth_f, setc_f, set_af_f_and15, set_bc_f, set_de_f,
           set_hl_f, get_byte_snd_f, push_stack_fst_f, pop_stack_snd_f];
         try exact hf));
       done)
    | (cases hok;
       (repeat' split) <;>
         (try simp only [setz_f, setn_f, seth_f, setc_f, set_af_f_and15, set_bc_f, set_de_f,
           set_hl_f, get_byte_snd_f, push_stack_fst_f, pop_stack_snd_f];
          try exact hf);
       done)

theorem exec_8x_f (op : Nat) (s : CPU) (m : MMU) (out : CPU × MMU × Nat)
    (hf : s.f &&& 15 = 0) (hok : exec_8x op s m = .ok out) : out.1.f &&& 15 = 0 := by
  unfold exec_8x at hok
  split at hok
  all_goals first
    | exact Except.noConfusion hok
    | (cases hok;
       try simp only [setz_f, setn_f, seth_f, setc_f, set_af_f_and15, set_bc_f, set_de_f,
         set_hl_f, get_byte_snd_f, push_stack_fst_f, pop_stack_snd_f];
       try exact hf;
       done)
    | ((split at hok <;>
        (cases hok;
         try simp only [setz_f, setn_f, seth_f, setc_f, set_af_f_and15, set_bc_f, set_de_f,
           set_hl_f, get_byte_snd_f, push_stack_fst_f, pop_stack_snd_f];
         try exact hf));
       done)
    | (cases hok;
       (repeat' split) <;>
         (try simp only [setz_f, setn_f, seth_f, setc_f, set_af_f_and15, set_bc_f, set_de_f,
           set_hl_f, get_byte_snd_f, push_stack_fst_f, pop_stack_snd_f];
          try exact hf);
       done)

theorem exec_9x_f (op : Nat) (s : CPU) (m : MMU) (out : CPU × MMU × Nat)
    (hf : s.f &&& 15 = 0) (hok : exec_9x op s m = .ok out) : out.1.f &&& 15 = 0 := by
  unfold exec_9x at hok
  split at hok
  all_goals first
    | exact Except.noConfusion hok
    | (cases hok;
       try simp only [setz_f, setn_f, seth_f, setc_f, set_af_f_and15, set_bc_f, set_de_f,
         set_hl_f, get_byte_snd_f, push_stack_fst_f, pop_stack_snd_f];
       try exact hf;
       done)
    | ((split at hok <;>
        (cases hok;
         try simp only [setz_f, setn_f, seth_f, setc_f, set_af_f_and15, set_bc_f, set_de_f,
           set_hl_f, get_byte_snd_f, push_stack_fst_f, pop_stack_snd_f];
         try exact hf));
       done)
    | (cases hok;
       (repeat' split) <;>
         (try simp only [setz_f, setn_f, seth_f, setc_f, set_af_f_and15, set_bc_f, set_de_f,
           set_hl_f, get_byte_snd_f, push_stack_fst_f, pop_stack_snd_f];
          try exact hf);
       done)

theorem exec_Ax_f (op : Nat) (s : CPU) (m : MMU) (out : CPU × MMU × Nat)
    (hf : s.f &&& 15 = 0) (hok : exec_Ax op s m = .ok out) : out.1.f &&& 15 = 0 := by
  unfold exec_Ax at hok
  split at hok
  all_goals first
    | exact Except.noConfusion hok
    | (cases hok;
       try simp only [setz_f, setn_f, seth_f, setc_f, set_af_f_and15, set_bc_f, set_de_f,
         set_hl_f, get_byte_snd_f, push_stack_fst_f, pop_stack_snd_f];
       try exact hf;
       done)
    | ((split at hok <;>
        (cases hok;
         try simp only [setz_f, setn_f, seth_f, setc_f, set_af_f_and15, set_bc_f, set_de_f,
           set_hl_f, get_byte_snd_f, push_stack_fst_f, pop_stack_snd_f];
         try exact hf));
       done)
    | (cases hok;
       (repeat' split) <;>
         (try simp only [setz_f, setn_f, seth_f, setc_f, set_af_f_and15, set_bc_f, set_de_f,
           set_hl_f, get_byte_snd_f, push_stack_fst_f, pop_stack_snd_f];
          try exact hf);
       done)

theorem exec_Bx_f (op : Nat) (s : CPU) (m : MMU) (out : CPU × MMU × Nat)
    (hf : s.f &&& 15 = 0) (hok : exec_Bx op s m = .ok out) : out.1.f &&& 15 = 0 := by
  unfold exec_Bx at hok
  split at hok
  all_goals first
    | exact Except.noConfusion hok
    | (cases hok;
       try simp only [setz_f, setn_f, seth_f, setc_f, set_af_f_and15, set_bc_f, set_de_f,
         set_hl_f, get_byte_snd_f, push_stack_fst_f, pop_stack_snd_f];
       try exact hf;
       done)
    | ((split at hok <;>
        (cases hok;
         try simp only [setz_f, setn_f, seth_f, setc_f, set_af_f_and15, set_bc_f, set_de_f,
           set_hl_f, get_byte_snd_f, push_stack_fst_f, pop_stack_snd_f];
         try exact hf));
       done)
    | (cases hok;
       (repeat' split) <;>
         (try simp only [setz_f, setn_f, seth_f, setc_f, set_af_f_and15, set_bc_f, set_de_f,
           set_hl_f, get_byte_snd_f, push_stack_fst_f, pop_stack_snd_f];
          try exact hf);
       done)

theorem exec_Cx_f (op : Nat) (s : CPU) (m : MMU) (out : CPU × MMU × Nat)
    (hf : s.f &&& 15 = 0) (hok : exec_Cx op s m = .ok out) : out.1.f &&& 15 = 0 := by
  obtain ⟨k, hk, hop⟩ : ∃ k, k < 16 ∧ op &&& 15 = k := ⟨_, and15_lt op, rfl⟩
  unfold exec_Cx at hok
  rw [hop] at hok
  interval_cases k
  all_goals (try dsimp only [] at hok)
  all_goals first
    | exact Except.noConfusion hok
    | (cases hok;
       try simp only [setz_f, setn_f, seth_f, setc_f, set_af_f_and15, set_bc_f, set_de_f,
         set_hl_f, get_byte_snd_f, push_stack_fst_f, pop_stack_snd_f];
       try exact hf;
       done)
    | ((split at hok <;>
        (cases hok;
         try simp only [setz_f, setn_f, seth_f, setc_f, set_af_f_and15, set_bc_f, set_de_f,
           set_hl_f, get_byte_snd_f, push_stack_fst_f, pop_stack_snd_f];
         try exact hf));
       done)
    | (cases hok; exact execute_prefixed_f _ _ hf)

theorem exec_Dx_f (op : Nat) (s : CPU) (m : MMU) (out : CPU × MMU × Nat)
    (hf : s.f &&& 15 = 0) (hok : exec_Dx op s m = .ok out) : out.1.f &&& 15 = 0 := by
  obtain ⟨k, hk, hop⟩ : ∃ k, k < 16 ∧ op &&& 15 = k := ⟨_, and15_lt op, rfl⟩
  unfold exec_Dx at hok
  rw [hop] at hok
  interval_cases k
  all_goals (try dsimp only [] at hok)
  all_goals first
    | exact Except.noConfusion hok
    | (cases hok;
       try simp only [setz_f, setn_f, seth_f, setc_f, set_af_f_and15, set_bc_f, set_de_f,
         set_hl_f, get_byte_snd_f, push_stack_fst_f, pop_stack_snd_f];
       try exact hf;
       done)
    | ((split at hok <;>
        (cases hok;
         try simp only [setz_f, setn_f, seth_f, setc_f, set_af_f_and15, set_bc_f, set_de_f,
           set_hl_f, get_byte_snd_f, push_stack_fst_f, pop_stack_snd_f];
         try exact hf));
       done)
    | (cases hok;
       (repeat' split) <;>
         (try simp only [setz_f, setn_f, seth_f, setc_f, set_af_f_and15, set_bc_f, set_de_f,
           set_hl_f, get_byte_snd_f, push_stack_fst_f, pop_stack_snd_f];
          try exact hf);
       done)
theorem exec_Ex_f (op : Nat) (s : CPU) (m : MMU) (out : CPU × MMU × Nat)
    (hf : s.f &&& 15 = 0) (hok : exec_Ex op s m = .ok out) : out.1.f &&& 15 = 0 := by
  unfold exec_Ex at hok
  split at hok
  all_goals first
    | exact Except.noConfusion hok
    | (cases hok;
       try simp only [setz_f, setn_f, seth_f, setc_f, set_af_f_and15, set_bc_f, set_de_f,
         set_hl_f, get_byte_snd_f, push_stack_fst_f, pop_stack_snd_f];
       try exact hf;
       done)
    | ((split at hok <;>
        (cases hok;
         try simp only [setz_f, setn_f, seth_f, setc_f, set_af_f_and15, set_bc_f, set_de_f,
           set_hl_f, get_byte_snd_f, push_stack_fst_f, pop_stack_snd_f];
         try exact hf));
       done)
    | (cases hok;
       (repeat' split) <;>
         (try simp only [setz_f, setn_f, seth_f, setc_f, set_af_f_and15, set_bc_f, set_de_f,
           set_hl_f, get_byte_snd_f, push_stack_fst_f, pop_stack_snd_f];
          try exact hf);
       done)

theorem exec_Fx_f (op : Nat) (s : CPU) (m : MMU) (out : CPU × MMU × Nat)
    (hf : s.f &&& 15 = 0) (hok : exec_Fx op s m = .ok out) : out.1.f &&& 15 = 0 := by
  unfold exec_Fx at hok
  split at hok
  all_goals first
    | exact Except.noConfusion hok
    | (cases hok;
       try simp only [setz_f, setn_f, seth_f, setc_f, set_af_f_and15, set_bc_f, set_de_f,
         set_hl_f, get_byte_snd_f, push_stack_fst_f, pop_stack_snd_f];
       try exact hf;
       done)
    | ((split at hok <;>
        (cases hok;
         try simp only [setz_f, setn_f, seth_f, setc_f, set_af_f_and15, set_bc_f, set_de_f,
           set_hl_f, get_byte_snd_f, push_stack_fst_f, pop_stack_snd_f];
         try exact hf));
       done)
    | (cases hok;
       (repeat' split) <;>
         (try simp only [setz_f, setn_f, seth_f, setc_f, set_af_f_and15, set_bc_f, set_de_f,
           set_hl_f, get_byte_snd_f, push_stack_fst_f, pop_stack_snd_f];
          try exact hf);
       done)

theorem execute_opcode_f (op : Nat) (hop : op < 256) (s : CPU) (m : MMU)
    (out : CPU × MMU × Nat) (hf : s.f &&& 15 = 0)
    (hok : s.execute_opcode op m = .ok out) : out.1.f &&& 15 = 0 := by
  unfold CPU.execute_opcode at hok
  split at hok
  case h_1 => exact exec_0x_f _ _ _ _ hf hok
  case h_2 => exact exec_1x_f _ _ _ _ hf hok
  case h_3 => exact exec_2x_f _ _ _ _ hf hok
  case h_4 => exact exec_3x_f _ _ _ _ hf hok
  case h_5 => exact exec_4x_f _ _ _ _ hf hok
  case h_6 => exact exec_5x_f _ _ _ _ hf hok
  case h_7 => exact exec_6x_f _ _ _ _ hf hok
  case h_8 => exact exec_7x_f _ _ _ _ hf hok
  case h_9 => exact exec_8x_f _ _ _ _ hf hok
  case h_10 => exact exec_9x_f _ _ _ _ hf hok
  case h_11 => exact exec_Ax_f _ _ _ _ hf hok
  case h_12 => exact exec_Bx_f _ _ _ _ hf hok
  case h_13 => exact exec_Cx_f _ _ _ _ hf hok
  case h_14 => exact exec_Dx_f _ _ _ _ hf hok
  case h_15 => exact exec_Ex_f _ _ _ _ hf hok
  case h_16 => exact exec_Fx_f _ _ _ _ hf hok
  case h_17 => exact Except.noConfusion hok

theorem execute_interrupts_f (s : CPU) (m : MMU) :
    (s.execute_interrupts m).1.f = s.f := by
  simp only [CPU.execute_interrupts]
  split
  · split
    · simp only [push_stack_fst_f]
    · rfl
  · rfl

theorem execute_interrupts_cycles_zero (s : CPU) (m : MMU)
    (h : (s.execute_interrupts m).2.2 = 0) :
    (s.execute_interrupts m).1.pc = s.pc ∧ (s.execute_interrupts m).2.1 = m := by
  simp only [CPU.execute_interrupts] at h ⊢
  split at h
  case isTrue h1 =>
    split at h
    case isTrue h2 =>
      norm_num at h
    case isFalse h2 =>
      rw [if_pos h1, if_neg h2]
      exact ⟨rfl, rfl⟩
  case isFalse h1 =>
    rw [if_neg h1]
    exact ⟨rfl, rfl⟩

theorem with_pc_f (s : CPU) (v : Nat) : ({ s with pc := v } : CPU).f = s.f := rfl

theorem with_ime_f (s : CPU) :
    ({ s with ime := true, ime_scheduled := false } : CPU).f = s.f := rfl

/-! ## C9 -/

/-- **C9**: every CPU step from a state whose `F` register has a zero low
nibble yields a state whose `F` register again has a zero low nibble (the
fetched opcode is a byte, as the `u8` type of the Rust memory array
guarantees). -/
theorem execute_next_preserves_f_low_nibble (s : CPU) (m : MMU) (out : CPU × MMU × Nat)
    (hbyte : m.read_byte s.pc < 256) (hf : s.f &&& 0x0F = 0)
    (hok : s.execute_next m = .ok out) : out.1.f &&& 0x0F = 0 := by
  have hif : (s.execute_interrupts m).1.f &&& 0x0F = 0 := by
    rw [execute_interrupts_f]; exact hf
  simp only [CPU.execute_next] at hok
  split at hok
  case isTrue h1 =>
    cases hok
    exact hif
  case isFalse h1 =>
    split at hok
    case isTrue h2 =>
      cases hok
      exact hif
    case isFalse h2 =>
      have hz : (s.execute_interrupts m).2.2 = 0 := by omega
      obtain ⟨hpc, hm⟩ := execute_interrupts_cycles_zero s m hz
      split at hok
      case h_1 e heq => exact Except.noConfusion hok
      case h_2 s2 m2 cyc heq =>
        simp only [CPU.get_byte] at heq
        rw [hm, hpc] at heq
        have hs2 : s2.f &&& 15 = 0 :=
          execute_opcode_f (m.read_byte s.pc) hbyte _ _ _
            (by rw [with_pc_f, execute_interrupts_f]; exact hf) heq
        cases hok
        split <;> exact hs2

/-- witness for C9: a `NOP` step from the post-boot CPU state over zeroed
memory keeps the low nibble of `F` zero. -/
theorem execute_next_preserves_f_low_nibble_witness :
    (({ CPU.new with pc := 257 } : CPU)).f &&& 0x0F = 0 :=
  execute_next_preserves_f_low_nibble CPU.new mmu0
    ({ CPU.new with pc := 257 }, mmu0, 4) (by decide) (by decide) (by rfl)

/-! ## C1 -/

/-- counterexample to the original C1: a write of a ROM bank number to
`0x2000` leaves the MMU completely unchanged, so no banking register is
updated and no subsequent read can reflect the write. -/
theorem write_byte_rom_bank_select_counterexample :
    mmu0.write_byte 0x2000 0x02 = mmu0 := rfl

/-- **C1** (amended): `MMU::write_byte` silently drops every write to
`0x0000`–`0x7FFF`; there is no cartridge object, so no banking register
exists to be updated. -/
theorem write_byte_rom_dropped (m : MMU) (a v : Nat) (h : a < 0x8000) :
    m.write_byte a v = m := by
  simp only [MMU.write_byte]
  rw [if_neg (by omega : ¬ a = 0xFF46), if_pos h]

/-- witness for C1: a write to `0x6000` (an MBC banking-mode register) is
dropped. -/
theorem write_byte_rom_dropped_witness : mmuD3.write_byte 0x6000 0x01 = mmuD3 :=
  write_byte_rom_dropped mmuD3 0x6000 0x01 (by decide)

/-! ## C2 -/

/-- **C2**: `MBC3::read_byte` masks the ROM bank register with `0x07`, not
`0x7F`: after writing `0x08` to the bank-select range, a read of `0x4000`
comes from bank 1 (because `0x08 &&& 0x07 = 0` is promoted to 1), not from
bank 8 as a 7-bit register (`0x08 &&& 0x7F = 0x08`) would demand. -/
theorem mbc3_rom_bank_masked_to_3_bits :
    (((MBC3.new romC2).write_byte 0x2000 0x08).bind fun c => c.read_byte 0x4000)
        = .ok 1 ∧ (0x08 : Nat) &&& 0x7F = 0x08 :=
  ⟨rfl, rfl⟩

/-! ## C4 -/

/-- counterexample to the original C4: with no sprite covering `LX`, the
sprite FIFO receives exactly one transparent entry, not eight. -/
theorem fill_sprite_fifo_none_counterexample :
    (ppuC4.fill_sprite_fifo mmu0).sprite_fifo.length = 1 ∧
      ¬ (ppuC4.fill_sprite_fifo mmu0).sprite_fifo.length = 8 := by
  exact ⟨rfl, by decide⟩

/-- **C4** (amended): during a sprite-FIFO fetch, if no sprite in the
sprite buffer covers the current `LX`, exactly ONE transparent entry
(color 0, palette OBP0 at `0xFF48`, priority flag true) is appended to the
sprite FIFO. -/
theorem fill_sprite_fifo_none_single (p : PPU) (m : MMU)
    (h : p.find_object_address m = none) :
    (p.fill_sprite_fifo m).sprite_fifo = p.sprite_fifo ++
      [{ color := 0, palette_address := 0xFF48, bg_obj_priority_flag := true }] := by
  unfold PPU.fill_sprite_fifo
  rw [h]

/-- witness for C4: the single transparent entry on a concrete state with
an empty sprite buffer. -/
theorem fill_sprite_fifo_none_single_witness :
    (ppuC4.fill_sprite_fifo mmuD3).sprite_fifo = ppuC4.sprite_fifo ++
      [{ color := 0, palette_address := 0xFF48, bg_obj_priority_flag := true }] :=
  fill_sprite_fifo_none_single ppuC4 mmuD3 (by decide)

/-! ## C3 -/

theorem low_nibble_shr (f j : Nat) (hj : 4 ≤ j) : (f &&& 15) >>> j = 0 := by
  have h1 : f &&& 15 < 16 := by
    rw [show (15 : Nat) = 2 ^ 4 - 1 from rfl, Nat.and_pow_two_sub_one_eq_mod]
    exact Nat.mod_lt _ (by norm_num)
  have h16 : (16 : Nat) ≤ 2 ^ j :=
    le_trans (by norm_num : (16 : Nat) ≤ 2 ^ 4) (Nat.pow_le_pow_right (by norm_num) hj)
  rw [Nat.shiftRight_eq_div_pow]
  exact Nat.div_eq_of_lt (lt_of_lt_of_le h1 h16)

theorem low_nibble_shr7 (f : Nat) : (f &&& 15) >>> 7 = 0 := low_nibble_shr f 7 (by norm_num)

theorem low_nibble_shr6 (f : Nat) : (f &&& 15) >>> 6 = 0 := low_nibble_shr f 6 (by norm_num)

theorem low_nibble_shr5 (f : Nat) : (f &&& 15) >>> 5 = 0 := low_nibble_shr f 5 (by norm_num)

theorem low_nibble_shr4 (f : Nat) : (f &&& 15) >>> 4 = 0 := low_nibble_shr f 4 (by norm_num)

theorem land_21_15 : (21 &&& 15 : Nat) = 5 := rfl

theorem land_39_15 : (39 &&& 15 : Nat) = 7 := rfl

theorem land_0_15 : (0 &&& 15 : Nat) = 0 := rfl

theorem land_60_15 : (60 &&& 15 : Nat) = 12 := rfl

theorem land_0_1 : (0 &&& 1 : Nat) = 0 := rfl

theorem mask_collapse_add (f : Nat) :
    (((f &&& 223) &&& 239) &&& 127) &&& 191 = f &&& 15 := by
  rw [Nat.land_assoc, Nat.land_assoc, Nat.land_assoc]
  rfl

theorem mask_collapse_daa (f : Nat) : ((f &&& 15) &&& 127) &&& 223 = f &&& 15 := by
  rw [Nat.land_assoc, Nat.land_assoc]
  rfl

/-- counterexample to the original C3: from the claimed start state
(`A = 0x15`, `N = H = C = 0`), `ADD A, 0x27` yields `A = 0x3C` with
`H = 0`, not `H = 1` (the nibble sum `0x5 + 0x7 = 0xC` does not exceed
`0xF`). -/
theorem daa_sample_h_counterexample :
    ((cpuC3.execute_opcode 0xC6 mmu27).map fun r => (r.1.a, r.1.get_h_flag))
      = .ok (0x3C, false) := rfl

/-- **C3** (amended): starting from `A = 0x15` with `N = H = C = 0`,
`ADD A, 0x27` yields `A = 0x3C` with `H = 0`; `DAA` then yields `A = 0x42`
with `Z = 0`, `H = 0`, `C = 0`. -/
theorem daa_add_sample (s : CPU) (m : MMU) (out1 out2 : CPU × MMU × Nat)
    (ha : s.a = 0x15) (hn : s.get_n_flag = false) (hh : s.get_h_flag = false)
    (hc : s.get_c_flag = false) (himm : m.read_byte s.pc = 0x27)
    (h1 : s.execute_opcode 0xC6 m = .ok out1)
    (h2 : out1.1.execute_opcode 0x27 out1.2.1 = .ok out2) :
    out1.1.a = 0x3C ∧ out1.1.get_h_flag = false ∧
      out2.1.a = 0x42 ∧ out2.1.get_z_flag = false ∧
      out2.1.get_h_flag = false ∧ out2.1.get_c_flag = false := by
  simp [CPU.execute_opcode, exec_Cx, CPU.get_byte, CPU.set_h_flag, CPU.set_c_flag,
    CPU.set_z_flag, CPU.set_n_flag, CPU.set_flag, u8_check_half_carry_add,
    u8_check_carry_add, wadd8, himm, ha, land_21_15, land_39_15, land_0_15,
    mask_collapse_add] at h1
  cases h1
  simp [CPU.execute_opcode, exec_2x, CPU.get_n_flag, CPU.get_h_flag, CPU.get_c_flag,
    CPU.set_h_flag, CPU.set_c_flag, CPU.set_z_flag, CPU.set_n_flag, CPU.set_flag, wadd8,
    low_nibble_shr6, low_nibble_shr5, low_nibble_shr4, land_0_1, land_60_15,
    mask_collapse_daa] at h2
  cases h2
  refine ⟨rfl, ?_, rfl, ?_, ?_, ?_⟩
  · simp [CPU.get_h_flag, low_nibble_shr5, land_0_1]
  · simp [CPU.get_z_flag, low_nibble_shr7, land_0_1]
  · simp [CPU.get_h_flag, low_nibble_shr5, land_0_1]
  · simp [CPU.get_c_flag, low_nibble_shr4, land_0_1]

/-- witness for C3: the two-instruction sample run concretely from
[cpuC3] over memory filled with `0x27`. -/
theorem daa_add_sample_witness :
    (({ cpuC3 with a := 0x3C, pc := 1 } : CPU)).a = 0x3C ∧
      (({ cpuC3 with a := 0x3C, pc := 1 } : CPU)).get_h_flag = false ∧
      (({ cpuC3 with a := 0x42, pc := 1 } : CPU)).a = 0x42 ∧
      (({ cpuC3 with a := 0x42, pc := 1 } : CPU)).get_z_flag = false ∧
      (({ cpuC3 with a := 0x42, pc := 1 } : CPU)).get_h_flag = false ∧
      (({ cpuC3 with a := 0x42, pc := 1 } : CPU)).get_c_flag = false :=
  daa_add_sample cpuC3 mmu27
    ({ cpuC3 with a := 0x3C, pc := 1 }, mmu27, 8)
    ({ cpuC3 with a := 0x42, pc := 1 }, mmu27, 4)
    rfl rfl rfl rfl rfl (by rfl) (by rfl)

/-! ## C8 -/

theorem shr_and_one_eq_testBit (y j : Nat) : ((y >>> j) &&& 1 == 1) = y.testBit j := by
  rw [Nat.testBit, Nat.and_comm 1]
  rcases Nat.mod_two_eq_zero_or_one (y >>> j) with h2 | h2 <;>
    rw [Nat.and_one_is_mod, h2] <;> rfl

theorem is_bit_set_testBit (v j : Nat) : is_bit_set v j = v.testBit j := by
  rw [is_bit_set]
  exact shr_and_one_eq_testBit v j

theorem bit2_or4 (x : Nat) : is_bit_set (x ||| 4) 2 = true := by
  rw [is_bit_set_testBit, Nat.testBit_or, show Nat.testBit 4 2 = true from rfl,
    Bool.or_true]

theorem pre_timer_state_memory (m : MMU) (cycles a : Nat) (ha : 0xFEA0 ≤ a) :
    (m.pre_timer_state cycles).memory a = m.memory a := by
  simp only [MMU.pre_timer_state]
  split
  · split
    · simp only [MMU.dma_copy]
      rw [if_neg (by omega : ¬ (0xFE00 ≤ a ∧ a < 0xFEA0))]
    · rfl
  · rfl

theorem read_byte_prev_update (x : MMU) (b : Bool) (a : Nat) :
    ({ x with prev_and_result := b } : MMU).read_byte a = x.read_byte a := by
  simp only [MMU.read_byte]

theorem write_FF05_read_FF05 (m : MMU) (v : Nat) :
    (m.write_byte 0xFF05 v).read_byte 0xFF05 = v := rfl

theorem write_FF05_read_FF0F (m : MMU) (v : Nat) :
    (m.write_byte 0xFF05 v).read_byte 0xFF0F = m.read_byte 0xFF0F := rfl

theorem request2_read_FF0F (m : MMU) :
    (m.request_interrupt 2).read_byte 0xFF0F = m.read_byte 0xFF0F ||| 4 := rfl

/-- **C8**: on a timer step, TIMA (`FF05`) is incremented exactly when the
TAC-selected DIV bit ANDed with the timer enable falls from true (previous
step) to false (current step); an increment that overflows from `0xFF`
reloads TIMA from TMA (`FF06`) and sets bit 2 of IF (`FF0F`). -/
theorem update_timers_tima_spec (m : MMU) (cycles : Nat)
    (h : m.read_byte 0xFF05 < 256) :
    if (m.pre_timer_state cycles).prev_and_result
        && !(m.pre_timer_state cycles).timer_and_result then
      (if m.read_byte 0xFF05 = 0xFF then
        (m.update_timers cycles).read_byte 0xFF05 = m.read_byte 0xFF06 ∧
          is_bit_set ((m.update_timers cycles).read_byte 0xFF0F) 2
      else (m.update_timers cycles).read_byte 0xFF05 = m.read_byte 0xFF05 + 1)
    else (m.update_timers cycles).read_byte 0xFF05 = m.read_byte 0xFF05 := by
  have hm5 : (m.pre_timer_state cycles).read_byte 0xFF05 = m.read_byte 0xFF05 := by
    show (m.pre_timer_state cycles).memory 0xFF05 = m.memory 0xFF05
    exact pre_timer_state_memory m cycles 0xFF05 (by norm_num)
  have hm6 : (m.pre_timer_state cycles).read_byte 0xFF06 = m.read_byte 0xFF06 := by
    show (m.pre_timer_state cycles).memory 0xFF06 = m.memory 0xFF06
    exact pre_timer_state_memory m cycles 0xFF06 (by norm_num)
  simp only [MMU.update_timers, read_byte_prev_update, hm5, hm6]
  split
  case isTrue h_edge =>
    split
    case isTrue h255 =>
      rw [if_pos (show (m.read_byte 0xFF05 + 1) % 256 = 0 by rw [h255])]
      constructor
      · rw [write_FF05_read_FF05]
      · rw [write_FF05_read_FF0F, request2_read_FF0F]
        exact bit2_or4 _
    case isFalse h255 =>
      rw [if_neg (show ¬ (m.read_byte 0xFF05 + 1) % 256 = 0 by omega)]
      rw [write_FF05_read_FF05]
      exact Nat.mod_eq_of_lt (by omega)
  case isFalse h_edge =>
    exact hm5

/-- witness for C8: a falling edge with `TIMA = 0xFF` on [mmuC8] reloads
TIMA from TMA and raises the timer interrupt. -/
theorem update_timers_tima_spec_witness :
    (mmuC8.update_timers 4).read_byte 0xFF05 = mmuC8.read_byte 0xFF06 ∧
      is_bit_set ((mmuC8.update_timers 4).read_byte 0xFF0F) 2 :=
  update_timers_tima_spec mmuC8 4 (by decide)

/-! ## C6 -/

set_option maxHeartbeats 2000000 in
theorem execute_prefixed_cycles (s : CPU) (m : MMU) (h : m.read_byte s.pc < 256) :
    (s.execute_prefixed m).2.2 = cbCycles (m.read_byte s.pc) := by
  simp only [CPU.execute_prefixed, CPU.get_byte]
  obtain ⟨cb, hcb⟩ : ∃ cb, m.read_byte s.pc = cb := ⟨_, rfl⟩
  rw [hcb] at h ⊢
  interval_cases cb
  all_goals rfl

theorem cyclesOf_ok (r : Except Halt (CPU × MMU × Nat)) (out : CPU × MMU × Nat)
    (h : r = .ok out) : out.2.2 = cyclesOf r := by
  cases h
  rfl

theorem cyclesOf_ite (c : Prop) [Decidable c] (a b : Except Halt (CPU × MMU × Nat)) :
    cyclesOf (if c then a else b) = cyclesOf a ∨
      cyclesOf (if c then a else b) = cyclesOf b := by
  split
  · exact Or.inl rfl
  · exact Or.inr rfl

set_option maxHeartbeats 1000000 in
theorem exec_0x_cycles (op : Nat) (hhi : op < 0x0F + 1) (s : CPU) (m : MMU)
    (out : CPU × MMU × Nat) (hok : exec_0x op s m = .ok out) :
    out.2.2 = (dmgCycles op).1 ∨ out.2.2 = (dmgCycles op).2 := by
  rw [cyclesOf_ok _ _ hok]
  clear hok
  interval_cases op
  all_goals first
    | exact Or.inl rfl
    | exact cyclesOf_ite _ _ _

set_option maxHeartbeats 1000000 in
theorem exec_1x_cycles (op : Nat) (hlo : 0x10 ≤ op) (hhi : op < 0x1F + 1) (hstop : op ≠ 0x10) (s : CPU) (m : MMU)
    (out : CPU × MMU × Nat) (hok : exec_1x op s m = .ok out) :
    out.2.2 = (dmgCycles op).1 ∨ out.2.2 = (dmgCycles op).2 := by
  rw [cyclesOf_ok _ _ hok]
  clear hok
  interval_cases op
  all_goals first
    | exact absurd rfl hstop
    | exact Or.inl rfl
    | exact cyclesOf_ite _ _ _

set_option maxHeartbeats 1000000 in
theorem exec_2x_cycles (op : Nat) (hlo : 0x20 ≤ op) (hhi : op < 0x2F + 1) (s : CPU) (m : MMU)
    (out : CPU × MMU × Nat) (hok : exec_2x op s m = .ok out) :
    out.2.2 = (dmgCycles op).1 ∨ out.2.2 = (dmgCycles op).2 := by
  rw [cyclesOf_ok _ _ hok]
  clear hok
  interval_cases op
  all_goals first
    | exact Or.inl rfl
    | exact cyclesOf_ite _ _ _

set_option maxHeartbeats 1000000 in
theorem exec_3x_cycles (op : Nat) (hlo : 0x30 ≤ op) (hhi : op < 0x3F + 1) (s : CPU) (m : MMU)
    (out : CPU × MMU × Nat) (hok : exec_3x op s m = .ok out) :
    out.2.2 = (dmgCycles op).1 ∨ out.2.2 = (dmgCycles op).2 := by
  rw [cyclesOf_ok _ _ hok]
  clear hok
  interval_cases op
  all_goals first
    | exact Or.inl rfl
    | exact cyclesOf_ite _ _ _

set_option maxHeartbeats 1000000 in
theorem exec_4x_cycles (op : Nat) (hlo : 0x40 ≤ op) (hhi : op < 0x4F + 1) (s : CPU) (m : MMU)
    (out : CPU × MMU × Nat) (hok : exec_4x op s m = .ok out) :
    out.2.2 = (dmgCycles op).1 ∨ out.2.2 = (dmgCycles op).2 := by
  rw [cyclesOf_ok _ _ hok]
  clear hok
  interval_cases op
  all_goals first
    | exact Or.inl rfl
    | exact cyclesOf_ite _ _ _

set_option maxHeartbeats 1000000 in
theorem exec_5x_cycles (op : Nat) (hlo : 0x50 ≤ op) (hhi : op < 0x5F + 1) (s : CPU) (m : MMU)
    (out : CPU × MMU × Nat) (hok : exec_5x op s m = .ok out) :
    out.2.2 = (dmgCycles op).1 ∨ out.2.2 = (dmgCycles op).2 := by
  rw [cyclesOf_ok _ _ hok]
  clear hok
  interval_cases op
  all_goals first
    | exact Or.inl rfl
    | exact cyclesOf_ite _ _ _

set_option maxHeartbeats 1000000 in
theorem exec_6x_cycles (op : Nat) (hlo : 0x60 ≤ op) (hhi : op < 0x6F + 1) (s : CPU) (m : MMU)
    (out : CPU × MMU × Nat) (hok : exec_6x op s m = .ok out) :
    out.2.2 = (dmgCycles op).1 ∨ out.2.2 = (dmgCycles op).2 := by
  rw [cyclesOf_ok _ _ hok]
  clear hok
  interval_cases op
  all_goals first
    | exact Or.inl rfl
    | exact cyclesOf_ite _ _ _

set_option maxHeartbeats 1000000 in
theorem exec_7x_cycles (op : Nat) (hlo : 0x70 ≤ op) (hhi : op < 0x7F + 1) (s : CPU) (m : MMU)
    (out : CPU × MMU × Nat) (hok : exec_7x op s m = .ok out) :
    out.2.2 = (dmgCycles op).1 ∨ out.2.2 = (dmgCycles op).2 := by
  rw [cyclesOf_ok _ _ hok]
  clear hok
  interval_cases op
  all_goals first
    | exact Or.inl rfl
    | exact cyclesOf_ite _ _ _

set_option maxHeartbeats 1000000 in
theorem exec_8x_cycles (op : Nat) (hlo : 0x80 ≤ op) (hhi : op < 0x8F + 1) (s : CPU) (m : MMU)
    (out : CPU × MMU × Nat) (hok : exec_8x op s m = .ok out) :
    out.2.2 = (dmgCycles op).1 ∨ out.2.2 = (dmgCycles op).2 := by
  rw [cyclesOf_ok _ _ hok]
  clear hok
  interval_cases op
  all_goals first
    | exact Or.inl rfl
    | exact cyclesOf_ite _ _ _

set_option maxHeartbeats 1000000 in
theorem exec_9x_cycles (op : Nat) (hlo : 0x90 ≤ op) (hhi : op < 0x9F + 1) (s : CPU) (m : MMU)
    (out : CPU × MMU × Nat) (hok : exec_9x op s m = .ok out) :
    out.2.2 = (dmgCycles op).1 ∨ out.2.2 = (dmgCycles op).2 := by
  rw [cyclesOf_ok _ _ hok]
  clear hok
  interval_cases op
  all_goals first
    | exact Or.inl rfl
    | exact cyclesOf_ite _ _ _

set_option maxHeartbeats 1000000 in
theorem exec_Ax_cycles (op : Nat) (hlo : 0xA0 ≤ op) (hhi : op < 0xAF + 1) (s : CPU) (m : MMU)
    (out : CPU × MMU × Nat) (hok : exec_Ax op s m = .ok out) :
    out.2.2 = (dmgCycles op).1 ∨ out.2.2 = (dmgCycles op).2 := by
  rw [cyclesOf_ok _ _ hok]
  clear hok
  interval_cases op
  all_goals first
    | exact Or.inl rfl
    | exact cyclesOf_ite _ _ _

set_option maxHeartbeats 1000000 in
theorem exec_Bx_cycles (op : Nat) (hlo : 0xB0 ≤ op) (hhi : op < 0xBF + 1) (s : CPU) (m : MMU)
    (out : CPU × MMU × Nat) (hok : exec_Bx op s m = .ok out) :
    out.2.2 = (dmgCycles op).1 ∨ out.2.2 = (dmgCycles op).2 := by
  rw [cyclesOf_ok _ _ hok]
  clear hok
  interval_cases op
  all_goals first
    | exact Or.inl rfl
    | exact cyclesOf_ite _ _ _

set_option maxHeartbeats 1000000 in
theorem exec_Cx_cycles (op : Nat) (hlo : 0xC0 ≤ op) (hhi : op < 0xCF + 1) (hcb : op ≠ 0xCB) (s : CPU) (m : MMU)
    (out : CPU × MMU × Nat) (hok : exec_Cx op s m = .ok out) :
    out.2.2 = (dmgCycles op).1 ∨ out.2.2 = (dmgCycles op).2 := by
  rw [cyclesOf_ok _ _ hok]
  clear hok
  interval_cases op
  all_goals first
    | exact absurd rfl hcb
    | exact Or.inl rfl
    | exact cyclesOf_ite _ _ _

set_option maxHeartbeats 1000000 in
theorem exec_Dx_cycles (op : Nat) (hlo : 0xD0 ≤ op) (hhi : op < 0xDF + 1) (s : CPU) (m : MMU)
    (out : CPU × MMU × Nat) (hok : exec_Dx op s m = .ok out) :
    out.2.2 = (dmgCycles op).1 ∨ out.2.2 = (dmgCycles op).2 := by
  rw [cyclesOf_ok _ _ hok]
  clear hok
  interval_cases op
  all_goals first
    | exact Or.inl rfl
    | exact cyclesOf_ite _ _ _

set_option maxHeartbeats 1000000 in
theorem exec_Ex_cycles (op : Nat) (hlo : 0xE0 ≤ op) (hhi : op < 0xEF + 1) (s : CPU) (m : MMU)
    (out : CPU × MMU × Nat) (hok : exec_Ex op s m = .ok out) :
    out.2.2 = (dmgCycles op).1 ∨ out.2.2 = (dmgCycles op).2 := by
  rw [cyclesOf_ok _ _ hok]
  clear hok
  interval_cases op
  all_goals first
    | exact Or.inl rfl
    | exact cyclesOf_ite _ _ _

set_option maxHeartbeats 1000000 in
theorem exec_Fx_cycles (op : Nat) (hlo : 0xF0 ≤ op) (hhi : op < 0xFF + 1) (s : CPU) (m : MMU)
    (out : CPU × MMU × Nat) (hok : exec_Fx op s m = .ok out) :
    out.2.2 = (dmgCycles op).1 ∨ out.2.2 = (dmgCycles op).2 := by
  rw [cyclesOf_ok _ _ hok]
  clear hok
  interval_cases op
  all_goals first
    | exact Or.inl rfl
    | exact cyclesOf_ite _ _ _

theorem execute_opcode_cycles (op : Nat) (hop : op < 256) (hill : op ∉ illegal_opcodes)
    (hstop : op ≠ 0x10) (hcb : op ≠ 0xCB) (s : CPU) (m : MMU) (out : CPU × MMU × Nat)
    (hok : CPU.execute_opcode op s m = .ok out) :
    out.2.2 = (dmgCycles op).1 ∨ out.2.2 = (dmgCycles op).2 := by
  have hdiv : op >>> 4 = op / 16 := by
    rw [Nat.shiftRight_eq_div_pow]
  obtain ⟨r, hr, hrw⟩ : ∃ r, r < 16 ∧ op >>> 4 = r :=
    ⟨op >>> 4, by rw [hdiv]; omega, rfl⟩
  unfold CPU.execute_opcode at hok
  rw [hrw] at hok
  rw [hdiv] at hrw
  interval_cases r
  all_goals (try dsimp only [] at hok)
  · exact exec_0x_cycles op (by omega) s m out hok
  · exact exec_1x_cycles op (by omega) (by omega) hstop s m out hok
  · exact exec_2x_cycles op (by omega) (by omega) s m out hok
  · exact exec_3x_cycles op (by omega) (by omega) s m out hok
  · exact exec_4x_cycles op (by omega) (by omega) s m out hok
  · exact exec_5x_cycles op (by omega) (by omega) s m out hok
  · exact exec_6x_cycles op (by omega) (by omega) s m out hok
  · exact exec_7x_cycles op (by omega) (by omega) s m out hok
  · exact exec_8x_cycles op (by omega) (by omega) s m out hok
  · exact exec_9x_cycles op (by omega) (by omega) s m out hok
  · exact exec_Ax_cycles op (by omega) (by omega) s m out hok
  · exact exec_Bx_cycles op (by omega) (by omega) s m out hok
  · exact exec_Cx_cycles op (by omega) (by omega) hcb s m out hok
  · exact exec_Dx_cycles op (by omega) (by omega) s m out hok
  · exact exec_Ex_cycles op (by omega) (by omega) s m out hok
  · exact exec_Fx_cycles op (by omega) (by omega) s m out hok

theorem execute_opcode_stop_cycles (s : CPU) (m : MMU) (out : CPU × MMU × Nat)
    (hok : CPU.execute_opcode 0x10 s m = .ok out) : out.2.2 = 8 := by
  rw [cyclesOf_ok _ _ hok]
  rfl

/-- counterexample to the original C6: `STOP` (`0x10`) reports 8 T-cycles,
which is neither component of the canonical DMG table entry `(4, 4)`. -/
theorem stop_cycles_counterexample :
    cyclesOf (CPU.execute_opcode 0x10 CPU.new mmu0) = 8 ∧
      ¬ (cyclesOf (CPU.execute_opcode 0x10 CPU.new mmu0) = (dmgCycles 0x10).1 ∨
         cyclesOf (CPU.execute_opcode 0x10 CPU.new mmu0) = (dmgCycles 0x10).2) := by
  exact ⟨rfl, by decide⟩

/-- **C6** (amended): every implemented opcode other than `STOP` reports
the canonical DMG cycle count — for every non-CB opcode outside the
undefined list the reported count is one component of the canonical
`(taken, not-taken)` pair, and every CB-prefixed opcode reports the
canonical CB cost of the fetched CB opcode — while `STOP` (`0x10`)
reports 8 T-cycles instead of its canonical 4. -/
theorem cycle_counts_match_dmg_table :
    (∀ op s m (out : CPU × MMU × Nat), op < 256 → op ∉ illegal_opcodes →
        op ≠ 0x10 → op ≠ 0xCB → CPU.execute_opcode op s m = .ok out →
        out.2.2 = (dmgCycles op).1 ∨ out.2.2 = (dmgCycles op).2) ∧
      (∀ (s : CPU) (m : MMU), m.read_byte s.pc < 256 →
        (s.execute_prefixed m).2.2 = cbCycles (m.read_byte s.pc)) ∧
      (∀ s m (out : CPU × MMU × Nat), CPU.execute_opcode 0x10 s m = .ok out →
        out.2.2 = 8) :=
  ⟨fun op s m out hop hill hstop hcb hok =>
      execute_opcode_cycles op hop hill hstop hcb s m out hok,
    execute_prefixed_cycles,
    execute_opcode_stop_cycles⟩

/-- witness for C6: `NOP` from the post-boot state reports 4 cycles, the
canonical table value. -/
theorem cycle_counts_match_dmg_table_witness :
    ((CPU.new, mmu0, 4) : CPU × MMU × Nat).2.2 = (dmgCycles 0x00).1 ∨
      ((CPU.new, mmu0, 4) : CPU × MMU × Nat).2.2 = (dmgCycles 0x00).2 :=
  cycle_counts_match_dmg_table.1 0x00 CPU.new mmu0 (CPU.new, mmu0, 4)
    (by decide) (by decide) (by decide) (by decide) (by rfl)

/-! ## C10 -/

theorem next_mode_render_bounds (p : PPU) (h : p.next_mode = .ok .RENDER) :
    (p.mode = .OAMSCAN ∧ p.ly < 0x90) ∨ (p.mode = .RENDER ∧ p.ly < 0x90 ∧ p.lx < 0xA0) := by
  simp only [PPU.next_mode] at h
  repeat' split at h
  all_goals first
    | exact Except.noConfusion h
    | exact absurd (Except.ok.inj h) (by decide)
    | exact Or.inl ⟨‹p.mode = .OAMSCAN ∧ p.ly < 0x90 ∧ p.cycles_spent = 80›.1,
        ‹p.mode = .OAMSCAN ∧ p.ly < 0x90 ∧ p.cycles_spent = 80›.2.1⟩
    | exact Or.inr ⟨‹p.mode = .RENDER ∧ p.ly < 0x90›.1,
        ‹p.mode = .RENDER ∧ p.ly < 0x90›.2, ‹p.lx < 0xA0›⟩

theorem next_mode_error (p : PPU) (e : Halt) (h : p.next_mode = .error e) :
    e = .unreachableState := by
  simp only [PPU.next_mode] at h
  repeat' split at h
  all_goals first
    | exact Except.noConfusion h
    | (cases h; rfl)

theorem update_mode_error (p : PPU) (m : MMU) (e : Halt)
    (h : p.update_mode m = .error e) : e = .unreachableState := by
  simp only [PPU.update_mode] at h
  split at h
  case h_1 e2 heq =>
    cases h
    exact next_mode_error p e heq
  case h_2 mode heq =>
    repeat' split at h
    all_goals exact Except.noConfusion h

theorem update_mode_render_bounds (p : PPU) (m : MMU) (out : PPU × MMU)
    (h : p.update_mode m = .ok out) (hr : out.1.mode = .RENDER) :
    out.1.cycles_waste > 0 ∨ (out.1.ly < 144 ∧ out.1.lx < 160) := by
  simp only [PPU.update_mode] at h
  split at h
  case h_1 e heq => exact Except.noConfusion h
  case h_2 mode heq =>
    split at h
    case isTrue hsame =>
      cases h
      have hmode : mode = .RENDER := hr
      subst hmode
      rcases next_mode_render_bounds p heq with ⟨h1, _⟩ | ⟨_, h2, h3⟩
      · exact absurd (hsame.trans h1) (by decide)
      · exact Or.inr ⟨h2, h3⟩
    case isFalse hdiff =>
      split at h <;> cases h <;> cases mode
      all_goals first
        | (simp at hr; done)
        | (left; simp; try omega; done)

theorem fill_sprite_fifo_ly (p : PPU) (m : MMU) : (p.fill_sprite_fifo m).ly = p.ly := by
  simp only [PPU.fill_sprite_fifo]
  split <;> rfl

theorem fill_sprite_fifo_lx (p : PPU) (m : MMU) : (p.fill_sprite_fifo m).lx = p.lx := by
  simp only [PPU.fill_sprite_fifo]
  split <;> rfl

theorem fill_background_fifo_ly (p : PPU) (m : MMU) :
    (p.fill_background_fifo m).ly = p.ly := by
  simp only [PPU.fill_background_fifo]
  split <;> rfl

theorem fill_background_fifo_lx (p : PPU) (m : MMU) :
    (p.fill_background_fifo m).lx = p.lx := by
  simp only [PPU.fill_background_fifo]
  split <;> rfl

theorem render_pixel_not_oob (p : PPU) (m : MMU) (hly : p.ly < 144) (hlx : p.lx < 160) :
    p.render_pixel m ≠ .error .frameBufferOutOfBounds := by
  simp only [PPU.render_pixel]
  repeat' split
  all_goals first
    | (simp; done)
    | (rename_i hcond; exfalso; simp only [WIDTH, HEIGHT] at hcond; omega)

theorem render_not_oob (p : PPU) (m : MMU) (hly : p.ly < 144) (hlx : p.lx < 160) :
    p.render m ≠ .error .frameBufferOutOfBounds := by
  simp only [PPU.render]
  repeat' split
  all_goals first
    | (simp; done)
    | ((apply render_pixel_not_oob) <;>
        (try simp only [fill_background_fifo_ly, fill_background_fifo_lx,
          fill_sprite_fifo_ly, fill_sprite_fifo_lx]) <;>
        (first
          | exact hly
          | exact hlx))

theorem process_not_oob (p : PPU) (m : MMU)
    (hp : p.mode = .RENDER → p.cycles_waste > 0 ∨ (p.ly < 144 ∧ p.lx < 160)) :
    p.process m ≠ .error .frameBufferOutOfBounds := by
  simp only [PPU.process]
  split
  · simp
  case isFalse hw =>
    split
    · simp
    case h_2 heq =>
      rcases hp heq with hwaste | ⟨h1, h2⟩
      · omega
      · exact render_not_oob p m h1 h2
    · simp

/-- **C10**: a PPU tick never halts with the framebuffer-out-of-bounds
panic: `render` only writes a pixel when `LY < 144` and `LX < 160` (RENDER
mode is entered with a positive `cycles_waste` budget and is kept only
while `LY < 0x90` and `LX < 0xA0`), so the index `LY * 160 + LX` stays
inside the `160 * 144` framebuffer. -/
theorem tick_never_framebuffer_oob (p : PPU) (m : MMU) :
    p.tick m ≠ .error .frameBufferOutOfBounds := by
  simp only [PPU.tick]
  cases hum : (if p.frame_ready then { p with frame_ready := false } else p).update_mode m with
  | error e =>
    simp only [hum]
    have he := update_mode_error _ m e hum
    subst he
    simp
  | ok pm =>
    obtain ⟨p1, m1⟩ := pm
    simp only [hum]
    cases hproc : p1.process m1 with
    | error e2 =>
      simp only [hproc]
      intro hcon
      injection hcon with he
      rw [he] at hproc
      exact absurd hproc
        (process_not_oob p1 m1 (fun hm =>
          update_mode_render_bounds _ m (p1, m1) hum hm))
    | ok p2 =>
      simp only [hproc]
      split <;> simp

/-- witness for C10 at a concrete state: the tick from [ppuC5] over zeroed
memory does not halt with the framebuffer panic. -/
theorem tick_never_framebuffer_oob_witness :
    ppuC5.tick mmu0 ≠ .error .frameBufferOutOfBounds :=
  tick_never_framebuffer_oob ppuC5 mmu0

/-! ## C5 -/

theorem bit1_or2 (x : Nat) : is_bit_set (x ||| 2) 1 = true := by
  rw [is_bit_set_testBit, Nat.testBit_or, show Nat.testBit 2 1 = true from rfl,
    Bool.or_true]

theorem write_FF44_read_FF0F (m : MMU) (v : Nat) :
    (m.write_byte 0xFF44 v).read_byte 0xFF0F = m.read_byte 0xFF0F := rfl

theorem write_FF44_read_FF41 (m : MMU) (v : Nat) :
    (m.write_byte 0xFF44 v).read_byte 0xFF41 = m.read_byte 0xFF41 := rfl

theorem request1_read_FF0F (m : MMU) :
    (m.request_interrupt 1).read_byte 0xFF0F = m.read_byte 0xFF0F ||| 2 := rfl

theorem request1_read_FF41 (m : MMU) :
    (m.request_interrupt 1).read_byte 0xFF41 = m.read_byte 0xFF41 := rfl

/-- counterexample to the original C5: a scanline boundary whose new
`LY = 5` matches `LYC = 5` requests the STAT interrupt (IF bit 1) and
updates `FF44`, but leaves STAT bit 2 (`FF41`) clear. -/
theorem lyc_match_stat_bit_counterexample :
    ((ppuC5.tick mmuC5).map fun x => (is_bit_set (x.2.read_byte 0xFF41) 2,
        is_bit_set (x.2.read_byte 0xFF0F) 1, x.2.read_byte 0xFF44))
      = .ok (false, true, 5) := rfl

/-- **C5** (amended): at a scanline boundary, if the incremented `LY`
equals LYC (`FF45`) then an LCD STAT interrupt (IF bit 1) is requested,
but the STAT LYC-match bit (`FF41` bit 2) is NOT written: it keeps its
previous value. -/
theorem setup_for_new_scanline_lyc (p : PPU) (m : MMU)
    (hmatch : m.read_byte 0xFF45 = (p.ly + 1) % 0x9A) :
    is_bit_set ((p.setup_for_new_scanline m).2.read_byte 0xFF0F) 1 = true ∧
      is_bit_set ((p.setup_for_new_scanline m).2.read_byte 0xFF41) 2
        = is_bit_set (m.read_byte 0xFF41) 2 := by
  simp only [PPU.setup_for_new_scanline]
  rw [if_pos hmatch]
  constructor
  · rw [request1_read_FF0F, write_FF44_read_FF0F]
    exact bit1_or2 _
  · rw [request1_read_FF41, write_FF44_read_FF41]

/-- witness for C5: the boundary from `LY = 4` to `LY = 5` with `LYC = 5`
on concrete state. -/
theorem setup_for_new_scanline_lyc_witness :
    is_bit_set ((ppuC5.setup_for_new_scanline mmuC5).2.read_byte 0xFF0F) 1 = true ∧
      is_bit_set ((ppuC5.setup_for_new_scanline mmuC5).2.read_byte 0xFF41) 2
        = is_bit_set (mmuC5.read_byte 0xFF41) 2 :=
  setup_for_new_scanline_lyc ppuC5 mmuC5 (by decide)

/-! ## C7 -/

/-- counterexample to the original C7: two CPU states that differ only in
`pc` produce the IDENTICAL diagnostic on the undefined opcode `0xD3`, so
the diagnostic cannot name the PC. -/
theorem undefined_opcode_error_lacks_pc :
    cpuC7a.execute_next mmuD3 = .error (.notImplemented 0xD3) ∧
      cpuC7b.execute_next mmuD3 = .error (.notImplemented 0xD3) ∧
      ¬ cpuC7a.pc = cpuC7b.pc :=
  ⟨rfl, rfl, by decide⟩

/-- **C7** (amended): fetching any of the eleven undefined opcodes halts
the core with a diagnostic that names the offending opcode (and only the
opcode: `Halt.notImplemented` carries no PC). -/
theorem undefined_opcode_halts_naming_opcode (op : Nat)
    (hop : op ∈ illegal_opcodes) (s : CPU) (m : MMU) :
    s.execute_opcode op m = .error (.notImplemented op) := by
  fin_cases hop <;> rfl

/-- witness for C7: opcode `0xDB` from the post-boot state. -/
theorem undefined_opcode_halts_naming_opcode_witness :
    CPU.new.execute_opcode 0xDB mmu0 = .error (.notImplemented 0xDB) :=
  undefined_opcode_halts_naming_opcode 0xDB (by decide) CPU.new mmu0

end RustBoy
